import Mathlib

/-!
# The WiFi sweep driver (`wifi-example-sim-updated.cc`)

A shallow embedding of the active code path of `main`: the three nested loops over
WiFi standard, distance and user count, and the body executed for every run tuple
(node placement, traffic set-up, data collection, output file name), first as a pure function
of the run tuple and then as a transition of the explicit driver state.

* C++ `double` values are embedded in an ordered field `α` with a floor function
  (exact arithmetic; rounding of the machine format is outside the model).
* C++ `int` values are embedded in `Int`; the conversion `(int)d` of a `double` is confined
  to the range of the 32-bit `int`.
* `M_PI`, `cos` and `sin` of `<cmath>` and the stream output of a `double` are taken as
  parameters (`StdLib`).
* A `std::stringstream` is embedded as the `String` written so far.
* Calls into the simulation engine are recorded in the order in which `main` issues them;
  what the engine measures during `Simulator::Run()` is a parameter of the explicit-state
  driver.
-/

namespace WifiExampleSim

/-! ## Data model -/

/-- The engine's `Vector(x, y, z)`. -/
structure Vector (α : Type) where
  x : α
  y : α
  z : α
deriving DecidableEq, Repr

/-- The two values of the engine's `WifiStandard` enumeration used by `main`. -/
inductive WifiStandard where
  | WIFI_STANDARD_80211ax
  | WIFI_STANDARD_80211be
deriving DecidableEq, Repr

/-- The standard-library items used by `main`: `M_PI`, `cos`, `sin` of `<cmath>` and
`std::ostream << double` (`showDouble`). -/
structure StdLib (α : Type) where
  M_PI : α
  cos : α → α
  sin : α → α
  showDouble : α → String

/-- Attributes given to a `Sender` application (lines 184-198, 210); `Destination` is
`none` until `Config::Set` writes it. -/
structure Sender where
  Port : Int
  PacketSize : Int
  Interval : String
  NumPackets : Int
  StartTime : Int
  Destination : Option String
deriving DecidableEq, Repr

/-- Attributes given to a `Receiver` application (lines 178, 201-203). -/
structure Receiver where
  Port : Int
  StartTime : Int
deriving DecidableEq, Repr

/-- An application installed on a node. -/
inductive Application where
  | sender : Sender → Application
  | receiver : Receiver → Application
deriving DecidableEq, Repr

/-- The C++ class of a data calculator created by `main`. -/
inductive CalculatorType where
  | CounterCalculator_uint32
  | PacketCounterCalculator
  | CounterCalculator
  | TimeMinMaxAvgTotalCalculator
deriving DecidableEq, Repr

/-- What feeds a data calculator: a trace source joined by `Config::Connect`, or a receiver
of the `receivers` vector through `SetCounter` or `SetDelayTracker`. -/
inductive Feed where
  | connect : String → String → Feed
  | setCounter : Int → Feed
  | setDelayTracker : Int → Feed
deriving DecidableEq, Repr

/-- A data calculator as configured by `main` (lines 221-266). -/
structure DataCalculator where
  type : CalculatorType
  Key : String
  Context : String
  feed : Feed
deriving DecidableEq, Repr

/-- The `DataCollector` of one run (lines 214-266). -/
structure DataCollector where
  experiment : String
  strategy : String
  input : String
  runID : String
  metadata : List (String × String)
  calculators : List DataCalculator
deriving DecidableEq, Repr

/-- The values `i` taken by `for (int i = lo; i <= hi; ++i)`. -/
def forRange (lo hi : Int) : List Int :=
  (List.range (hi + 1 - lo).toNat).map (fun (j : Nat) => lo + (j : Int))

/-- The conversion `(int)d` of a `double` to the 32-bit `int`: truncation toward zero when
the truncated value is representable, that is from `INT_MIN = -2147483648` to
`INT_MAX = 2147483647`. Outside that range C++ leaves the conversion undefined; the value
taken here is `INT_MIN`, which is what the x86-64 conversion instruction produces. -/
def castToInt {α : Type} [LinearOrderedField α] [FloorRing α] (d : α) : Int :=
  let t : Int := if 0 ≤ d then Int.floor d else Int.ceil d
  if -2147483648 ≤ t ∧ t ≤ 2147483647 then t else -2147483648

/-! ## Hard-coded parameters (lines 83-99) -/

/-- Line 84: `double bitRate = 5000`. -/
def bitRate {α : Type} [LinearOrderedField α] : α := 5000

/-- Line 94. -/
def userCounts : List Int := [1, 10, 20, 50]

/-- Line 95. -/
def distances {α : Type} [LinearOrderedField α] : List α := [0, 30, 60, 90, 120, 150]

/-- Lines 96-99. -/
def wifiStandards : List (String × WifiStandard) :=
  [("WiFi6_80211ax", WifiStandard.WIFI_STANDARD_80211ax),
   ("WiFi7_80211be", WifiStandard.WIFI_STANDARD_80211be)]

/-- Lines 104-108: `sstr << "run-" << time(NULL)`, with `now` the value of `time(NULL)`. -/
def mkRunID (now : Int) : String :=
  ("" ++ "run-") ++ toString now

/-! ## Node positions (lines 154-169) -/

/-- One iteration of the placement loop (lines 159-168). -/
def positionStep {α : Type} [LinearOrderedField α] (m : StdLib α) (distance : α) (users : Int)
    (positionAlloc : List (Vector α)) (i : Int) : List (Vector α) :=
  if users = 1 then
    positionAlloc ++ [Vector.mk 0 distance 0]
  else
    let angle : α := 2 * m.M_PI * ((i - 1 : Int) : α) / (users : α)
    let x := distance * m.cos angle
    let y := distance * m.sin angle
    positionAlloc ++ [Vector.mk x y 0]

/-- The list held by `positionAlloc` when it is handed to `SetPositionAllocator` (line 171). -/
def positions {α : Type} [LinearOrderedField α] (m : StdLib α) (distance : α) (users : Int) :
    List (Vector α) :=
  (forRange 1 users).foldl (positionStep m distance users) [Vector.mk 0 0 0]

/-! ## Output file name (lines 274-276) -/

/-- Lines 274-276: the stream operations building `filePrefix`. -/
def filePrefix {α : Type} [LinearOrderedField α] [FloorRing α] (runID : String) (distance : α)
    (users : Int) (stdName : String) : String :=
  let fileNameBuilder := ""
  let fileNameBuilder := fileNameBuilder ++ "DataOfUser1-"
  let fileNameBuilder := fileNameBuilder ++ runID
  let fileNameBuilder := fileNameBuilder ++ "-"
  let fileNameBuilder := fileNameBuilder ++ toString (castToInt distance)
  let fileNameBuilder := fileNameBuilder ++ "m-"
  let fileNameBuilder := fileNameBuilder ++ toString users
  let fileNameBuilder := fileNameBuilder ++ "users-"
  let fileNameBuilder := fileNameBuilder ++ stdName
  fileNameBuilder

/-- Modelled from the spec: the engine call `ipAddrs.Assign(nodeDevices)` after
`SetBase("192.168.0.0", "255.255.255.0")` (lines 149-151) is not part of this source file;
"address assignment is sequential starting at a fixed base subnet; coordinator receives the
first address, endpoints receive subsequent addresses in creation order". The result is the
list of addresses of nodes `0, 1, ..., nodeCount - 1`. -/
def Ipv4Assign (nodeCount : Nat) : List String :=
  (List.range nodeCount).map (fun (j : Nat) => "192.168.0." ++ toString ((j : Int) + 1))

/-! ## Traffic set-up (lines 175-211) -/

/-- Lines 188-190: `transmissionInterval` in seconds. -/
def transmissionInterval {α : Type} [LinearOrderedField α] : α :=
  let bitsPerPacket : α := ((1000 * 8 : Int) : α)
  let bitRateBps : α := bitRate * 1000
  bitsPerPacket / bitRateBps

/-- The call `node->AddApplication(app)` on node `idx` of the container. -/
def AddApplication (nodes : List (List Application)) (idx : Nat) (app : Application) :
    List (List Application) :=
  nodes.set idx ((nodes.getD idx []) ++ [app])

/-- The effect of `Config::Set` on the path
`/NodeList/<node>/ApplicationList/<appIdx>/$Sender/Destination`: the application at that
index of that node, when it exists and is a `Sender`, gets the destination. -/
def ConfigSetDestination (nodes : List (List Application)) (node appIdx : Nat) (dest : String) :
    List (List Application) :=
  match (nodes.getD node [])[appIdx]? with
  | some (Application.sender s) =>
      nodes.set node
        ((nodes.getD node []).set appIdx (Application.sender { s with Destination := some dest }))
  | _ => nodes

/-- State threaded through the traffic loop. -/
structure TrafficState where
  nodes : List (List Application)
  receivers : List Receiver
  configSet : List (String × String)
deriving DecidableEq, Repr

/-- One iteration of the traffic loop (lines 178-210). -/
def trafficStep {α : Type} [LinearOrderedField α] (m : StdLib α) (st : TrafficState) (i : Int) :
    TrafficState :=
  let intervalStream :=
    (("" ++ "ns3::ConstantRandomVariable[Constant=") ++ m.showDouble transmissionInterval) ++ "]"
  let sender : Sender :=
    { Port := 1000 + i, PacketSize := 1000, Interval := intervalStream,
      NumPackets := 100000000, StartTime := 0, Destination := none }
  let nodes := AddApplication st.nodes 0 (Application.sender sender)
  let receiver : Receiver := { Port := 1000 + i, StartTime := 0 }
  let nodes := AddApplication nodes i.toNat (Application.receiver receiver)
  let receivers := st.receivers ++ [receiver]
  let dest := ("" ++ "192.168.0.") ++ toString (i + 1)
  let destStr := "/NodeList/0/ApplicationList/" ++ toString (i - 1) ++ "/$Sender/Destination"
  { nodes := ConfigSetDestination nodes 0 (i - 1).toNat dest
    receivers := receivers
    configSet := st.configSet ++ [(destStr, dest)] }

/-- Lines 122-123 and 175-211: `nodes.Create(users + 1)` (argument of type `uint32_t`)
followed by the traffic loop. -/
def traffic {α : Type} [LinearOrderedField α] (m : StdLib α) (users : Int) : TrafficState :=
  (forRange 1 users).foldl (trafficStep m)
    { nodes := List.replicate ((users + 1) % 2 ^ 32).toNat [], receivers := [], configSet := [] }

/-! ## Data collection (lines 213-267) -/

/-- One iteration of the frame-counter loop (lines 229-238). -/
def rxFrameStep (calculators : List DataCalculator) (i : Int) : List DataCalculator :=
  let context := (("" ++ "node[") ++ toString i) ++ "]"
  let Path := (("" ++ "/NodeList/") ++ toString i) ++ "/DeviceList/*/$ns3::WifiNetDevice/Mac/MacRx"
  calculators ++
    [{ type := CalculatorType.PacketCounterCalculator, Key := "wifi-rx-frames", Context := context,
       feed := Feed.connect Path "PacketCounterCalculator::PacketUpdate" }]

/-- One iteration of the application-counter loop (lines 243-266). -/
def appCounterStep (calculators : List DataCalculator) (i : Int) : List DataCalculator :=
  let txPath := (("" ++ "/NodeList/0/ApplicationList/") ++ toString i) ++ "/$Sender/Tx"
  let calculators := calculators ++
    [{ type := CalculatorType.PacketCounterCalculator, Key := "sender-tx-packets",
       Context := "node[0]", feed := Feed.connect txPath "PacketCounterCalculator::PacketUpdate" }]
  let rxContext := (("" ++ "node[") ++ toString (i + 1)) ++ "]"
  let calculators := calculators ++
    [{ type := CalculatorType.CounterCalculator, Key := "receiver-rx-packets",
       Context := rxContext, feed := Feed.setCounter i }]
  calculators ++
    [{ type := CalculatorType.TimeMinMaxAvgTotalCalculator, Key := "delay", Context := ".",
       feed := Feed.setDelayTracker i }]

/-- Lines 214-267: the data collector of one run. -/
def mkDataCollector {α : Type} [LinearOrderedField α] (m : StdLib α) (runID stdName : String)
    (distance : α) (users : Int) : DataCollector :=
  let inputStream :=
    (((("" ++ "dist") ++ m.showDouble distance) ++ "_users") ++ toString users) ++ "_" ++ stdName
  let calculators : List DataCalculator :=
    [{ type := CalculatorType.CounterCalculator_uint32, Key := "wifi-tx-frames",
       Context := "node[0]",
       feed := Feed.connect "/NodeList/0/DeviceList/*/$ns3::WifiNetDevice/Mac/MacTx" "TxCallback" }]
  let calculators := (forRange 1 users).foldl rxFrameStep calculators
  let calculators := (forRange 0 (users - 1)).foldl appCounterStep calculators
  { experiment := "wifi-example-sim", strategy := "wifi-default", input := inputStream,
    runID := runID, metadata := [("author", "EEN1058-KYLE-SHEEHY")], calculators := calculators }

/-! ## The sweep (lines 114-288) -/

/-- What one iteration of the innermost loop builds and runs. -/
structure Run (α : Type) where
  stdName : String
  stdType : WifiStandard
  distance : α
  users : Int
  positions : List (Vector α)
  nodes : List (List Application)
  receivers : List Receiver
  configSet : List (String × String)
  dataCollector : DataCollector
  filePrefix : String

/-- State of the sweep: the simulations run so far and the files written so far through
`output->SetFilePrefix` and `output->Output`, oldest first. -/
structure SweepState (α : Type) where
  runs : List (Run α)
  files : List (String × DataCollector)

/-- The body of the innermost loop (lines 119-284) for one run tuple. -/
def runTuple {α : Type} [LinearOrderedField α] [FloorRing α] (m : StdLib α) (runID : String)
    (stdName : String) (stdType : WifiStandard) (distance : α) (users : Int) : Run α :=
  let t := traffic m users
  { stdName := stdName, stdType := stdType, distance := distance, users := users
    positions := positions m distance users
    nodes := t.nodes
    receivers := t.receivers
    configSet := t.configSet
    dataCollector := mkDataCollector m runID stdName distance users
    filePrefix := filePrefix runID distance users stdName }

/-- The body of the innermost loop as a state transition of the sweep. -/
def sweepStep {α : Type} [LinearOrderedField α] [FloorRing α] (m : StdLib α) (runID : String)
    (std : String × WifiStandard) (distance : α) (st : SweepState α) (users : Int) :
    SweepState α :=
  let r := runTuple m runID std.1 std.2 distance users
  { runs := st.runs ++ [r], files := st.files ++ [(r.filePrefix, r.dataCollector)] }

/-- The three nested loops (lines 114-288), parametrised by the three lists. -/
def sweep {α : Type} [LinearOrderedField α] [FloorRing α] (m : StdLib α) (runID : String)
    (wifiStandards : List (String × WifiStandard)) (distances : List α)
    (userCounts : List Int) : SweepState α :=
  wifiStandards.foldl (fun st std =>
    distances.foldl (fun st distance =>
      userCounts.foldl (sweepStep m runID std distance) st) st)
    { runs := [], files := [] }

/-- The active code path of `main`, with `now` the value returned by `time(NULL)`. -/
def main {α : Type} [LinearOrderedField α] [FloorRing α] (m : StdLib α) (now : Int) :
    SweepState α :=
  sweep m (mkRunID now) wifiStandards distances userCounts

/-- The run tuple of a simulation. -/
def Run.tuple {α : Type} (r : Run α) : String × α × Int :=
  (r.stdName, r.distance, r.users)

/-! ## The naming scheme in the words of the specification -/

/-- Truncation toward zero to an integer number of meters, as the specification words it:
the integer part of the magnitude, with the sign of the value. -/
def truncTowardZero {α : Type} [LinearOrderedField α] [FloorRing α] (d : α) : Int :=
  if d < 0 then -Int.floor (-d) else Int.floor d

/-- The part of the file name that follows the run id and its dash. -/
def tupleSuffix {α : Type} [LinearOrderedField α] [FloorRing α] (t : String × α × Int) : String :=
  toString (castToInt t.2.1) ++ ("m-" ++ (toString t.2.2 ++ ("users-" ++ t.1)))

/-! ## The driver with its state made explicit (lines 101-123, 269-285) -/

/-- What the engine holds when `Simulator::Run()` is called (line 271), as far as `main` has
configured it: the WiFi standard of the devices, the positions handed to the allocator, the
engine's node list with the application list of every node, and the calculators joined to
its trace sources and receivers. -/
structure Simulation (α : Type) where
  stdType : WifiStandard
  positions : List (Vector α)
  NodeList : List (List Application)
  calculators : List DataCalculator

/-- State of the driver between statements: the engine's node list with the application list
of every node (what the paths `/NodeList/<n>/ApplicationList/<k>` address), the `receivers`
vector, the data collector (`none` outside the scope of the loop body), the file prefix held
by `output`, the simulations run so far, and the files written so far, each with its prefix,
the collector and the values `μ` that the engine measured into the collector. -/
structure DriverState (α μ : Type) where
  NodeList : List (List Application)
  receivers : List Receiver
  dataCollector : Option DataCollector
  filePrefix : String
  runs : List (Run α)
  files : List (String × DataCollector × μ)

/-- Modelled from the spec: the engine call `Simulator::Destroy()` (line 283) is not part of
this source file; "tear down all simulation state (topology, flows, collectors) before
proceeding to the next tuple". The engine's node list is empty afterwards. -/
def SimulatorDestroy (_NodeList : List (List Application)) : List (List Application) :=
  []

/-- One iteration of the traffic loop (lines 178-210) when the nodes of the container start
at index `base` of the engine's node list: `nodes.Get(k)` is node `base + k`, while the path
given to `Config::Set` names node 0 of the engine's list. -/
def trafficStepAt {α : Type} [LinearOrderedField α] (m : StdLib α) (base : Nat)
    (st : TrafficState) (i : Int) : TrafficState :=
  let intervalStream :=
    (("" ++ "ns3::ConstantRandomVariable[Constant=") ++ m.showDouble transmissionInterval) ++ "]"
  let sender : Sender :=
    { Port := 1000 + i, PacketSize := 1000, Interval := intervalStream,
      NumPackets := 100000000, StartTime := 0, Destination := none }
  let nodes := AddApplication st.nodes (base + 0) (Application.sender sender)
  let receiver : Receiver := { Port := 1000 + i, StartTime := 0 }
  let nodes := AddApplication nodes (base + i.toNat) (Application.receiver receiver)
  let receivers := st.receivers ++ [receiver]
  let dest := ("" ++ "192.168.0.") ++ toString (i + 1)
  let destStr := "/NodeList/0/ApplicationList/" ++ toString (i - 1) ++ "/$Sender/Destination"
  { nodes := ConfigSetDestination nodes 0 (i - 1).toNat dest
    receivers := receivers
    configSet := st.configSet ++ [(destStr, dest)] }

/-- The body of the innermost loop (lines 119-284) as a transition of the driver state.
`nodes.Create` appends to the engine's node list; `receivers` and `dataCollector` are
declared inside the body; `Simulator::Run()` (line 271) is the parameter `simulate`, the
values that the engine measures into the collector as a function of what it holds at that
moment; `output`, declared before the loops, keeps its prefix from one iteration to the next
and `Output` writes under the prefix it holds; the body ends with `Simulator::Destroy()`,
`receivers.clear()` and the end of the scope of its locals. -/
def driverStep {α μ : Type} [LinearOrderedField α] [FloorRing α] (m : StdLib α)
    (simulate : Simulation α → μ) (runID : String) (std : String × WifiStandard) (distance : α)
    (st : DriverState α μ) (users : Int) : DriverState α μ :=
  let base := st.NodeList.length
  let NodeList := st.NodeList ++ List.replicate ((users + 1) % 2 ^ 32).toNat []
  let positionAlloc := positions m distance users
  let receivers : List Receiver := []
  let t := (forRange 1 users).foldl (trafficStepAt m base)
    { nodes := NodeList, receivers := receivers, configSet := [] }
  let dataCollector := mkDataCollector m runID std.1 distance users
  let measured := simulate
    { stdType := std.2, positions := positionAlloc, NodeList := t.nodes
      calculators := dataCollector.calculators }
  let r : Run α :=
    { stdName := std.1, stdType := std.2, distance := distance, users := users
      positions := positionAlloc, nodes := t.nodes, receivers := t.receivers
      configSet := t.configSet, dataCollector := dataCollector
      filePrefix := filePrefix runID distance users std.1 }
  let output : DriverState α μ :=
    { st with filePrefix := filePrefix runID distance users std.1 }
  let files := st.files ++ [(output.filePrefix, dataCollector, measured)]
  { NodeList := SimulatorDestroy t.nodes
    receivers := []
    dataCollector := none
    filePrefix := output.filePrefix
    runs := st.runs ++ [r]
    files := files }

/-- The driver state when the outermost loop is entered; `outputPrefix` is the prefix that
`CreateObject<OmnetDataOutput>()` (line 101) starts with. -/
def driverInit {α μ : Type} (outputPrefix : String) : DriverState α μ :=
  { NodeList := [], receivers := [], dataCollector := none, filePrefix := outputPrefix
    runs := [], files := [] }

/-- The three nested loops (lines 114-288) over the explicit driver state. -/
def driverLoop {α μ : Type} [LinearOrderedField α] [FloorRing α] (m : StdLib α)
    (simulate : Simulation α → μ) (runID : String)
    (wifiStandards : List (String × WifiStandard)) (distances : List α)
    (userCounts : List Int) (st : DriverState α μ) : DriverState α μ :=
  wifiStandards.foldl (fun st std =>
    distances.foldl (fun st distance =>
      userCounts.foldl (driverStep m simulate runID std distance) st) st) st

/-- The loop body executed for a sequence of run tuples, one after the other. -/
def driverRuns {α μ : Type} [LinearOrderedField α] [FloorRing α] (m : StdLib α)
    (simulate : Simulation α → μ) (runID : String)
    (tuples : List ((String × WifiStandard) × α × Int)) (st : DriverState α μ) :
    DriverState α μ :=
  tuples.foldl (fun st t => driverStep m simulate runID t.1 t.2.1 st t.2.2) st

/-- What the engine holds at `Simulator::Run()` in the simulation that the loop body builds
from a run tuple alone. -/
def simulationOf {α : Type} (r : Run α) : Simulation α :=
  { stdType := r.stdType, positions := r.positions, NodeList := r.nodes
    calculators := r.dataCollector.calculators }

/-- The file that the loop body writes for a run tuple: prefix, collector and the values
measured by the engine. -/
def writtenFile {α μ : Type} (simulate : Simulation α → μ) (r : Run α) :
    String × DataCollector × μ :=
  (r.filePrefix, r.dataCollector, simulate (simulationOf r))

/-! ## Data collection in closed form -/

/-- The frame counter of the coordinator (lines 221-226). -/
def txFrameCalculator : DataCalculator :=
  { type := CalculatorType.CounterCalculator_uint32, Key := "wifi-tx-frames",
    Context := "node[0]",
    feed := Feed.connect "/NodeList/0/DeviceList/*/$ns3::WifiNetDevice/Mac/MacTx" "TxCallback" }

/-- The frame counter of endpoint node `i` (lines 229-238). -/
def rxFrameCalculator (i : Int) : DataCalculator :=
  { type := CalculatorType.PacketCounterCalculator, Key := "wifi-rx-frames"
    Context := "node[" ++ (toString i ++ "]")
    feed := Feed.connect
      ("/NodeList/" ++ (toString i ++ "/DeviceList/*/$ns3::WifiNetDevice/Mac/MacRx"))
      "PacketCounterCalculator::PacketUpdate" }

/-- The packet counter of sender `i` of node 0 (lines 244-250). -/
def appTxCalculator (i : Int) : DataCalculator :=
  { type := CalculatorType.PacketCounterCalculator, Key := "sender-tx-packets"
    Context := "node[0]"
    feed := Feed.connect ("/NodeList/0/ApplicationList/" ++ (toString i ++ "/$Sender/Tx"))
      "PacketCounterCalculator::PacketUpdate" }

/-- The packet counter given to receiver `i` (lines 253-259). -/
def appRxCalculator (i : Int) : DataCalculator :=
  { type := CalculatorType.CounterCalculator, Key := "receiver-rx-packets"
    Context := "node[" ++ (toString (i + 1) ++ "]")
    feed := Feed.setCounter i }

/-- The delay tracker given to receiver `i` (lines 262-266). -/
def delayCalculator (i : Int) : DataCalculator :=
  { type := CalculatorType.TimeMinMaxAvgTotalCalculator, Key := "delay", Context := "."
    feed := Feed.setDelayTracker i }

/-- The calculators of a run with `users` endpoints, in the order in which they are added. -/
def calculatorsFor (users : Int) : List DataCalculator :=
  txFrameCalculator :: ((forRange 1 users).map rxFrameCalculator ++
    (forRange 0 (users - 1)).flatMap (fun i =>
      [appTxCalculator i, appRxCalculator i, delayCalculator i]))

/-! ## Closed forms used in the proofs -/

/-- Reading a list of decimal digit characters back as a number. -/
def decodeDigits (cs : List Char) : Nat :=
  cs.foldl (fun acc c => acc * 10 + (c.toNat - 48)) 0

/-- The simulation and the file of one run tuple, as appended by `sweepStep`. -/
def fileOf {α : Type} (r : Run α) : String × DataCollector :=
  (r.filePrefix, r.dataCollector)

/-- The endpoint position that the circular branch computes for loop index `i`. -/
def circlePoint {α : Type} [LinearOrderedField α] (m : StdLib α) (distance : α) (users : Int)
    (i : Int) : Vector α :=
  Vector.mk (distance * m.cos (2 * m.M_PI * ((i - 1 : Int) : α) / (users : α)))
    (distance * m.sin (2 * m.M_PI * ((i - 1 : Int) : α) / (users : α))) 0

/-- The sender of flow `i` once the traffic loop has configured it. -/
def senderFor {α : Type} [LinearOrderedField α] (m : StdLib α) (i : Int) : Sender :=
  { Port := 1000 + i, PacketSize := 1000
    Interval :=
      (("" ++ "ns3::ConstantRandomVariable[Constant=") ++ m.showDouble transmissionInterval) ++ "]"
    NumPackets := 100000000, StartTime := 0
    Destination := some (("" ++ "192.168.0.") ++ toString (i + 1)) }

/-- The receiver of flow `i`. -/
def receiverFor (i : Int) : Receiver :=
  { Port := 1000 + i, StartTime := 0 }

/-- The `Config::Set` call of flow `i`. -/
def configSetFor (i : Int) : String × String :=
  ("/NodeList/0/ApplicationList/" ++ toString (i - 1) ++ "/$Sender/Destination",
    ("" ++ "192.168.0.") ++ toString (i + 1))

/-- The state of the traffic loop after `k` iterations over `n + 1` nodes. -/
def trafficAfter {α : Type} [LinearOrderedField α] (m : StdLib α) (n k : Nat) : TrafficState :=
  { nodes :=
      ((List.range k).map (fun (j : Nat) => Application.sender (senderFor m (1 + (j : Int))))) ::
        (List.range n).map (fun (j : Nat) =>
          if j < k then [Application.receiver (receiverFor (1 + (j : Int)))] else [])
    receivers := (List.range k).map (fun (j : Nat) => receiverFor (1 + (j : Int)))
    configSet := (List.range k).map (fun (j : Nat) => configSetFor (1 + (j : Int))) }

/-! ## The sweep as a Cartesian product -/

section SweepLemmas

variable {α : Type} [LinearOrderedField α] [FloorRing α]

theorem innerLoop_runs (m : StdLib α) (runID : String) (std : String × WifiStandard) (d : α)
    (U : List Int) (st : SweepState α) :
    (U.foldl (sweepStep m runID std d) st).runs
      = st.runs ++ U.map (runTuple m runID std.1 std.2 d) := by
  induction U generalizing st with
  | nil => simp
  | cons u us ih => simp [ih, sweepStep]

theorem innerLoop_files (m : StdLib α) (runID : String) (std : String × WifiStandard) (d : α)
    (U : List Int) (st : SweepState α) :
    (U.foldl (sweepStep m runID std d) st).files
      = st.files ++ (U.map (runTuple m runID std.1 std.2 d)).map fileOf := by
  induction U generalizing st with
  | nil => simp
  | cons u us ih => simp [ih, sweepStep, fileOf]

theorem middleLoop_runs (m : StdLib α) (runID : String) (std : String × WifiStandard)
    (D : List α) (U : List Int) (st : SweepState α) :
    (D.foldl (fun st d => U.foldl (sweepStep m runID std d) st) st).runs
      = st.runs ++ D.flatMap (fun d => U.map (runTuple m runID std.1 std.2 d)) := by
  induction D generalizing st with
  | nil => simp
  | cons d ds ih => simp [ih, innerLoop_runs]

theorem middleLoop_files (m : StdLib α) (runID : String) (std : String × WifiStandard)
    (D : List α) (U : List Int) (st : SweepState α) :
    (D.foldl (fun st d => U.foldl (sweepStep m runID std d) st) st).files
      = st.files ++ (D.flatMap (fun d => U.map (runTuple m runID std.1 std.2 d))).map fileOf := by
  induction D generalizing st with
  | nil => simp
  | cons d ds ih => simp [ih, innerLoop_files]

theorem outerLoop_runs (m : StdLib α) (runID : String) (S : List (String × WifiStandard))
    (D : List α) (U : List Int) (st : SweepState α) :
    (S.foldl (fun st std => D.foldl (fun st d => U.foldl (sweepStep m runID std d) st) st) st).runs
      = st.runs ++ S.flatMap (fun std =>
          D.flatMap (fun d => U.map (runTuple m runID std.1 std.2 d))) := by
  induction S generalizing st with
  | nil => simp
  | cons x xs ih => simp [ih, middleLoop_runs]

theorem outerLoop_files (m : StdLib α) (runID : String) (S : List (String × WifiStandard))
    (D : List α) (U : List Int) (st : SweepState α) :
    (S.foldl (fun st std => D.foldl (fun st d => U.foldl (sweepStep m runID std d) st) st) st).files
      = st.files ++ (S.flatMap (fun std =>
          D.flatMap (fun d => U.map (runTuple m runID std.1 std.2 d)))).map fileOf := by
  induction S generalizing st with
  | nil => simp
  | cons x xs ih => simp [ih, middleLoop_files]

/-- The simulations of a sweep, in closed form. -/
theorem sweep_runs (m : StdLib α) (runID : String) (S : List (String × WifiStandard))
    (D : List α) (U : List Int) :
    (sweep m runID S D U).runs
      = S.flatMap (fun std => D.flatMap (fun d => U.map (runTuple m runID std.1 std.2 d))) := by
  simp [sweep, outerLoop_runs]

/-- The files of a sweep are the files of its simulations, in the same order. -/
theorem sweep_files (m : StdLib α) (runID : String) (S : List (String × WifiStandard))
    (D : List α) (U : List Int) :
    (sweep m runID S D U).files = (sweep m runID S D U).runs.map fileOf := by
  simp [sweep, outerLoop_runs, outerLoop_files]

/-- The run tuples of a sweep are the Cartesian product of the three lists in nested order. -/
theorem sweep_tuples (m : StdLib α) (runID : String) (S : List (String × WifiStandard))
    (D : List α) (U : List Int) :
    (sweep m runID S D U).runs.map Run.tuple
      = List.product (S.map Prod.fst) (List.product D U) := by
  rw [sweep_runs]
  simp [List.product, List.map_flatMap, List.flatMap_map, Function.comp_def, Run.tuple, runTuple]

end SweepLemmas

theorem distances_nodup {α : Type} [LinearOrderedField α] : (distances : List α).Nodup := by
  simp [distances]

/-! ## Strings -/

theorem string_append_left_cancel {a b c : String} (h : a ++ b = a ++ c) : b = c := by
  have h2 := congrArg String.data h
  simp only [String.data_append] at h2
  exact String.ext (List.append_cancel_left h2)

theorem string_append_right_cancel {a b c : String} (h : a ++ c = b ++ c) : a = b := by
  have h2 := congrArg String.data h
  simp only [String.data_append] at h2
  exact String.ext (List.append_cancel_right h2)

theorem string_empty_append (a : String) : "" ++ a = a := by
  apply String.ext
  simp

/-! ## File names -/

section FileNames

variable {α : Type} [LinearOrderedField α] [FloorRing α]

theorem truncation_eq_truncTowardZero (d : α) :
    (if 0 ≤ d then Int.floor d else Int.ceil d) = truncTowardZero d := by
  unfold truncTowardZero
  by_cases h : 0 ≤ d
  · simp [h, not_lt.mpr h]
  · simp [h, not_le.mp h, Int.floor_neg]

/-- Inside the range of `int` the conversion is the truncation toward zero. -/
theorem castToInt_eq_truncTowardZero (d : α) (h1 : -2147483648 ≤ truncTowardZero d)
    (h2 : truncTowardZero d ≤ 2147483647) : castToInt d = truncTowardZero d := by
  simp only [castToInt, truncation_eq_truncTowardZero, h1, h2, and_self, if_true]

/-- Outside the range of `int` the conversion gives `INT_MIN`. -/
theorem castToInt_out_of_range (d : α)
    (h : ¬ (-2147483648 ≤ truncTowardZero d ∧ truncTowardZero d ≤ 2147483647)) :
    castToInt d = -2147483648 := by
  simp only [castToInt, truncation_eq_truncTowardZero, h, if_false]

/-- The result of the conversion is always a value of the 32-bit `int`. -/
theorem castToInt_range (d : α) : -2147483648 ≤ castToInt d ∧ castToInt d ≤ 2147483647 := by
  by_cases h : -2147483648 ≤ truncTowardZero d ∧ truncTowardZero d ≤ 2147483647
  · rw [castToInt_eq_truncTowardZero d h.1 h.2]
    exact h
  · rw [castToInt_out_of_range d h]
    decide

theorem filePrefix_eq_suffix (runID : String) (t : String × α × Int) :
    filePrefix runID t.2.1 t.2.2 t.1 = ("DataOfUser1-" ++ (runID ++ "-")) ++ tupleSuffix t := by
  simp only [filePrefix, tupleSuffix, string_empty_append, String.append_assoc]

theorem sweep_fileNames (m : StdLib α) (runID : String) (S : List (String × WifiStandard))
    (D : List α) (U : List Int) :
    (sweep m runID S D U).files.map Prod.fst
      = (List.product (S.map Prod.fst) (List.product D U)).map
          (fun t => filePrefix runID t.2.1 t.2.2 t.1) := by
  rw [sweep_files, sweep_runs]
  simp [List.product, List.map_flatMap, List.flatMap_map, Function.comp_def, fileOf, runTuple]

theorem hardCoded_suffixes_nodup :
    ((List.product (wifiStandards.map Prod.fst)
      (List.product (distances : List α) userCounts)).map tupleSuffix).Nodup := by
  simp only [List.product, wifiStandards, distances, userCounts, tupleSuffix, castToInt,
    List.map_cons, List.map_nil, List.flatMap_cons, List.flatMap_nil, List.append_nil,
    List.cons_append, List.nil_append,
    Int.floor_ofNat, Int.floor_zero, Nat.ofNat_nonneg, le_refl, if_true]
  decide

end FileNames

/-! ## Loops -/

theorem foldl_append_singleton {β γ : Type} (f : γ → β) (l : List γ) (init : List β) :
    l.foldl (fun acc i => acc ++ [f i]) init = init ++ l.map f := by
  induction l generalizing init with
  | nil => simp
  | cons a l ih => simp [ih]

theorem forRange_one (users : Int) :
    forRange 1 users = (List.range users.toNat).map (fun (j : Nat) => 1 + (j : Int)) := by
  simp [forRange]

theorem length_forRange_one (users : Int) : (forRange 1 users).length = users.toNat := by
  simp [forRange]

theorem mem_forRange_one (users i : Int) : i ∈ forRange 1 users ↔ 1 ≤ i ∧ i ≤ users := by
  simp only [forRange, List.mem_map, List.mem_range]
  constructor
  · rintro ⟨j, hj, rfl⟩
    omega
  · rintro ⟨h1, h2⟩
    exact ⟨(i - 1).toNat, by omega, by omega⟩

/-! ## Node positions -/

section Positions

variable {α : Type} [LinearOrderedField α]

theorem positions_single (m : StdLib α) (d : α) :
    positions m d 1 = [Vector.mk 0 0 0, Vector.mk 0 d 0] := by
  simp [positions, forRange, positionStep, List.range_succ]

theorem positions_circle (m : StdLib α) (d : α) (users : Int) (h : users ≠ 1) :
    positions m d users
      = Vector.mk 0 0 0 :: (forRange 1 users).map (circlePoint m d users) := by
  unfold positions
  have hs : positionStep m d users = fun acc i => acc ++ [circlePoint m d users i] := by
    funext acc i
    simp [positionStep, h, circlePoint]
  rw [hs, foldl_append_singleton]
  simp

end Positions

/-! ## Traffic set-up in closed form -/

section Traffic

variable {α : Type} [LinearOrderedField α]

theorem trafficAfter_zero (m : StdLib α) (n : Nat) :
    trafficAfter m n 0 = { nodes := List.replicate (n + 1) [], receivers := [], configSet := [] } := by
  simp only [trafficAfter, List.range_zero, List.map_nil, Nat.not_lt_zero, if_false,
    List.replicate_succ]
  congr 2
  apply List.ext_getElem?
  intro i
  simp [List.getElem?_replicate]

theorem AddApplication_zero (x : List Application) (rest : List (List Application))
    (a : Application) : AddApplication (x :: rest) 0 a = (x ++ [a]) :: rest := by
  simp [AddApplication]

theorem AddApplication_succ (x : List Application) (rest : List (List Application)) (j : Nat)
    (a : Application) :
    AddApplication (x :: rest) (j + 1) a = x :: rest.set j (rest.getD j [] ++ [a]) := by
  simp [AddApplication]

theorem ConfigSetDestination_last (l : List Application) (s : Sender)
    (rest : List (List Application)) (k : Nat) (hk : k = l.length) (dest : String) :
    ConfigSetDestination ((l ++ [Application.sender s]) :: rest) 0 k dest
      = (l ++ [Application.sender { s with Destination := some dest }]) :: rest := by
  subst hk
  simp [ConfigSetDestination]

theorem receivers_set (n k : Nat) (hk : k < n) (g : Nat → Application) :
    ((List.range n).map (fun (j : Nat) => if j < k then [g j] else [])).set k
        ((((List.range n).map (fun (j : Nat) => if j < k then [g j] else [])).getD k []) ++ [g k])
      = (List.range n).map (fun (j : Nat) => if j < k + 1 then [g j] else []) := by
  apply List.ext_getElem?
  intro i
  by_cases hik : i = k
  · subst hik
    simp [List.getElem?_set, hk]
  · by_cases hin : i < n
    · have hne : ¬ k = i := fun h => hik h.symm
      have h1 : (i < k + 1) = (i < k) := by
        apply propext
        omega
      simp [List.getElem?_set, hne, hin, h1]
    · have hne : ¬ k = i := fun h => hik h.symm
      have hnone : (List.range n)[i]? = none := by
        apply List.getElem?_eq_none
        simp only [List.length_range]
        omega
      simp [List.getElem?_set, hne, hnone]

theorem trafficStep_trafficAfter (m : StdLib α) (n k : Nat) (hk : k < n) :
    trafficStep m (trafficAfter m n k) (1 + (k : Int)) = trafficAfter m n (k + 1) := by
  have e1 : (1 + (k : Int)).toNat = k + 1 := by omega
  have e2 : (1 + (k : Int) - 1).toNat = k := by omega
  simp only [trafficStep, trafficAfter, e1, e2, AddApplication_zero, AddApplication_succ]
  have hr := receivers_set n k hk (fun j => Application.receiver (receiverFor (1 + (j : Int))))
  simp only [receiverFor] at hr ⊢
  rw [hr, ConfigSetDestination_last _ _ _ k (by simp)]
  simp [List.range_succ, senderFor, configSetFor]

theorem traffic_fold (m : StdLib α) (n k : Nat) (hk : k ≤ n) :
    ((List.range k).map (fun (j : Nat) => 1 + (j : Int))).foldl (trafficStep m)
        (trafficAfter m n 0)
      = trafficAfter m n k := by
  induction k with
  | zero => simp
  | succ k ih =>
    rw [List.range_succ, List.map_append, List.foldl_append, ih (by omega)]
    simp only [List.map_cons, List.map_nil, List.foldl_cons, List.foldl_nil]
    exact trafficStep_trafficAfter m n k (by omega)

/-- The traffic set-up of a run with `users` endpoints, in closed form. -/
theorem traffic_eq (m : StdLib α) (users : Int) (h0 : 0 ≤ users) (h1 : users < 2 ^ 31) :
    traffic m users = trafficAfter m users.toNat users.toNat := by
  have e : ((users + 1) % 2 ^ 32).toNat = users.toNat + 1 := by omega
  unfold traffic
  rw [e, ← trafficAfter_zero m users.toNat, forRange_one]
  exact traffic_fold m users.toNat users.toNat (le_refl _)

end Traffic

/-! ## Data collection -/

theorem foldl_append_list {β γ : Type} (f : γ → List β) (l : List γ) (init : List β) :
    l.foldl (fun acc i => acc ++ f i) init = init ++ l.flatMap f := by
  induction l generalizing init with
  | nil => simp
  | cons a l ih => simp [ih]

theorem rxFrameStep_eq :
    rxFrameStep = fun acc i => acc ++ [rxFrameCalculator i] := by
  funext acc i
  simp only [rxFrameStep, rxFrameCalculator, string_empty_append, String.append_assoc]

theorem appCounterStep_eq :
    appCounterStep
      = fun acc i => acc ++ [appTxCalculator i, appRxCalculator i, delayCalculator i] := by
  funext acc i
  simp only [appCounterStep, appTxCalculator, appRxCalculator, delayCalculator,
    string_empty_append, String.append_assoc, List.append_assoc, List.singleton_append,
    List.cons_append, List.nil_append]

/-- The calculators added to the data collector of a run, in closed form. -/
theorem mkDataCollector_calculators {α : Type} [LinearOrderedField α] (m : StdLib α)
    (runID stdName : String) (d : α) (users : Int) :
    (mkDataCollector m runID stdName d users).calculators = calculatorsFor users := by
  simp only [mkDataCollector, calculatorsFor, rxFrameStep_eq, appCounterStep_eq,
    foldl_append_singleton, foldl_append_list, txFrameCalculator]
  simp

theorem length_forRange_zero (users : Int) : (forRange 0 (users - 1)).length = users.toNat := by
  simp [forRange]

theorem length_calculatorsFor (users : Int) :
    (calculatorsFor users).length = 4 * users.toNat + 1 := by
  have h3 : ∀ l : List Int,
      (l.flatMap (fun i => [appTxCalculator i, appRxCalculator i, delayCalculator i])).length
        = 3 * l.length := by
    intro l
    induction l with
    | nil => simp
    | cons a l ih =>
      simp only [List.flatMap_cons, List.length_append, ih, List.length_cons, List.length_nil]
      omega
  simp only [calculatorsFor, List.length_cons, List.length_append, List.length_map, h3,
    length_forRange_one, length_forRange_zero]
  omega

theorem forRange_one_getElem? (users : Int) (j : Nat) (hj : j < users.toNat) :
    (forRange 1 users)[j]? = some (1 + (j : Int)) := by
  rw [forRange_one, List.getElem?_map, List.getElem?_range hj]
  rfl

theorem forRange_zero_getElem? (users : Int) (j : Nat) (hj : j < users.toNat) :
    (forRange 0 (users - 1))[j]? = some (j : Int) := by
  have hj2 : j < (users - 1 + 1 - 0).toNat := by omega
  rw [forRange, List.getElem?_map, List.getElem?_range hj2]
  simp

theorem flatMap_triple_getElem? (l : List Int) (i : Nat) (x : Int) (h : l[i]? = some x) :
    (l.flatMap (fun i => [appTxCalculator i, appRxCalculator i, delayCalculator i]))[3 * i]?
        = some (appTxCalculator x)
      ∧ (l.flatMap (fun i => [appTxCalculator i, appRxCalculator i, delayCalculator i]))[3 * i + 1]?
        = some (appRxCalculator x)
      ∧ (l.flatMap (fun i => [appTxCalculator i, appRxCalculator i, delayCalculator i]))[3 * i + 2]?
        = some (delayCalculator x) := by
  induction l generalizing i with
  | nil => simp at h
  | cons a l ih =>
    cases i with
    | zero =>
      simp only [List.getElem?_cons_zero, Option.some.injEq] at h
      subst h
      simp
    | succ i =>
      simp only [List.getElem?_cons_succ] at h
      have e0 : 3 * (i + 1) = 3 * i + 1 + 1 + 1 := by omega
      have e1 : 3 * (i + 1) + 1 = 3 * i + 1 + 1 + 1 + 1 := by omega
      have e2 : 3 * (i + 1) + 2 = 3 * i + 2 + 1 + 1 + 1 := by omega
      obtain ⟨h0, h1, h2⟩ := ih i h
      refine ⟨?_, ?_, ?_⟩
      · rw [e0]
        simp only [List.flatMap_cons, List.cons_append, List.nil_append, List.getElem?_cons_succ]
        exact h0
      · rw [e1]
        simp only [List.flatMap_cons, List.cons_append, List.nil_append, List.getElem?_cons_succ]
        exact h1
      · rw [e2]
        simp only [List.flatMap_cons, List.cons_append, List.nil_append, List.getElem?_cons_succ]
        exact h2

/-! ## Circular placement over the reals -/

theorem forRange_one_nodup (users : Int) : (forRange 1 users).Nodup := by
  rw [forRange_one]
  refine List.Nodup.map ?_ (List.nodup_range _)
  intro a b h
  simp only at h
  omega

theorem circlePoint_real_ne_origin (showDouble : ℝ → String) (d : ℝ) (k i : Int) (hd : d ≠ 0) :
    circlePoint (StdLib.mk Real.pi Real.cos Real.sin showDouble) d k i ≠ Vector.mk 0 0 0 := by
  intro h
  simp only [circlePoint, Vector.mk.injEq, mul_eq_zero, hd, false_or, and_true] at h
  have h1 := Real.cos_sq_add_sin_sq (2 * Real.pi * ((i - 1 : Int) : ℝ) / (k : ℝ))
  rw [h.1, h.2] at h1
  norm_num at h1

theorem circlePoint_real_inj (showDouble : ℝ → String) (d : ℝ) (k i j : Int) (hk : 1 < k)
    (hd : d ≠ 0) (hi1 : 1 ≤ i) (hi2 : i ≤ k) (hj1 : 1 ≤ j) (hj2 : j ≤ k)
    (h : circlePoint (StdLib.mk Real.pi Real.cos Real.sin showDouble) d k i
      = circlePoint (StdLib.mk Real.pi Real.cos Real.sin showDouble) d k j) : i = j := by
  simp only [circlePoint, Vector.mk.injEq, and_true] at h
  obtain ⟨hc, hs⟩ := h
  have hc2 := mul_left_cancel₀ hd hc
  have hs2 := mul_left_cancel₀ hd hs
  have hkR : (k : ℝ) ≠ 0 := by
    have : (0 : ℝ) < (k : ℝ) := by exact_mod_cast (by omega : (0 : Int) < k)
    exact ne_of_gt this
  have hcos : Real.cos (2 * Real.pi * ((i - 1 : Int) : ℝ) / (k : ℝ)
      - 2 * Real.pi * ((j - 1 : Int) : ℝ) / (k : ℝ)) = 1 := by
    rw [Real.cos_sub, hc2, hs2]
    have := Real.cos_sq_add_sin_sq (2 * Real.pi * ((j - 1 : Int) : ℝ) / (k : ℝ))
    nlinarith [this]
  obtain ⟨n, hn⟩ := (Real.cos_eq_one_iff _).mp hcos
  have hpi : Real.pi ≠ 0 := Real.pi_ne_zero
  have hR : (n : ℝ) * (k : ℝ) = (i : ℝ) - (j : ℝ) := by
    have h2 : (n : ℝ) * (2 * Real.pi) * (k : ℝ)
        = 2 * Real.pi * ((i : ℝ) - (j : ℝ)) := by
      rw [hn]
      push_cast
      field_simp
      ring
    have h3 : (2 * Real.pi) * ((n : ℝ) * (k : ℝ)) = (2 * Real.pi) * ((i : ℝ) - (j : ℝ)) := by
      linarith
    exact mul_left_cancel₀ (by positivity) h3
  have hZ : n * k = i - j := by exact_mod_cast hR
  have hn0 : n = 0 := by
    by_contra hne
    rcases lt_or_gt_of_ne hne with hlt | hgt
    · have : n * k ≤ -1 * k := by
        apply mul_le_mul_of_nonneg_right (by omega) (by omega)
      omega
    · have : 1 * k ≤ n * k := by
        apply mul_le_mul_of_nonneg_right (by omega) (by omega)
      omega
  rw [hn0] at hZ
  omega

/-! ## The driver state across iterations -/

theorem trafficStepAt_zero {α : Type} [LinearOrderedField α] (m : StdLib α) :
    trafficStepAt m 0 = trafficStep m := by
  funext st i
  simp [trafficStepAt, trafficStep]

section Driver

variable {α μ : Type} [LinearOrderedField α] [FloorRing α]

/-- An iteration entered with an empty engine node list simulates and writes what the pure
loop body computes from the run tuple and the run id, and leaves the state fresh. -/
theorem driverStep_of_fresh (m : StdLib α) (simulate : Simulation α → μ) (runID : String)
    (std : String × WifiStandard) (d : α) (st : DriverState α μ) (users : Int)
    (h : st.NodeList = []) :
    driverStep m simulate runID std d st users
      = { NodeList := [], receivers := [], dataCollector := none
          filePrefix := filePrefix runID d users std.1
          runs := st.runs ++ [runTuple m runID std.1 std.2 d users]
          files := st.files ++ [writtenFile simulate (runTuple m runID std.1 std.2 d users)] } := by
  simp only [driverStep, h, List.length_nil, trafficStepAt_zero, List.nil_append,
    SimulatorDestroy, runTuple, traffic, writtenFile, simulationOf]

/-- After any sequence of run tuples, started with an empty engine node list, the node list
and the receiver list are empty and no collector is in scope, and what has been simulated
and written is what the pure loop body computes from each tuple. -/
theorem driverRuns_of_fresh (m : StdLib α) (simulate : Simulation α → μ) (runID : String)
    (tuples : List ((String × WifiStandard) × α × Int)) (st : DriverState α μ)
    (h : st.NodeList = []) :
    (driverRuns m simulate runID tuples st).NodeList = []
      ∧ (tuples ≠ [] → (driverRuns m simulate runID tuples st).receivers = []
          ∧ (driverRuns m simulate runID tuples st).dataCollector = none)
      ∧ (driverRuns m simulate runID tuples st).runs
          = st.runs ++ tuples.map (fun t => runTuple m runID t.1.1 t.1.2 t.2.1 t.2.2)
      ∧ (driverRuns m simulate runID tuples st).files
          = st.files ++ tuples.map (fun t =>
              writtenFile simulate (runTuple m runID t.1.1 t.1.2 t.2.1 t.2.2)) := by
  induction tuples using List.reverseRecOn with
  | nil => simp [driverRuns, h]
  | append_singleton ts t ih =>
    obtain ⟨h1, _, h3, h4⟩ := ih
    have hfold : driverRuns m simulate runID (ts ++ [t]) st
        = driverStep m simulate runID t.1 t.2.1 (driverRuns m simulate runID ts st) t.2.2 := by
      simp [driverRuns]
    rw [hfold, driverStep_of_fresh m simulate runID t.1 t.2.1 _ t.2.2 h1]
    refine ⟨rfl, fun _ => ⟨rfl, rfl⟩, ?_, ?_⟩
    · simp [h3]
    · simp [h4]

/-- The three nested loops execute the loop body for the run tuples of the Cartesian product
in nested order. -/
theorem driverLoop_eq_driverRuns (m : StdLib α) (simulate : Simulation α → μ) (runID : String)
    (S : List (String × WifiStandard)) (D : List α) (U : List Int) (st : DriverState α μ) :
    driverLoop m simulate runID S D U st
      = driverRuns m simulate runID (List.product S (List.product D U)) st := by
  have inner : ∀ (x : String × WifiStandard) (d : α) (st : DriverState α μ),
      U.foldl (driverStep m simulate runID x d) st
        = driverRuns m simulate runID (U.map (fun u => (x, d, u))) st := by
    intro x d st
    simp [driverRuns, List.foldl_map]
  have middle : ∀ (x : String × WifiStandard) (st : DriverState α μ),
      D.foldl (fun st d => U.foldl (driverStep m simulate runID x d) st) st
        = driverRuns m simulate runID (D.flatMap (fun d => U.map (fun u => (x, d, u)))) st := by
    intro x st
    induction D generalizing st with
    | nil => rfl
    | cons d ds ih =>
      simp only [List.foldl_cons, List.flatMap_cons]
      rw [ih, inner]
      simp [driverRuns, List.foldl_append]
  unfold driverLoop
  induction S generalizing st with
  | nil => rfl
  | cons x xs ih =>
    simp only [List.foldl_cons]
    rw [ih, middle]
    simp [driverRuns, List.product, List.foldl_append, List.map_flatMap, Function.comp_def]

/-- Without the teardown the next run is not the one of its tuple: entered with one node left
in the engine's node list, a run with one user is simulated on three nodes, not two. -/
theorem driverStep_stale_nodeList (m : StdLib α) (runID : String) (std : String × WifiStandard)
    (d : α) (st : DriverState α Nat) (h : st.NodeList = [[]]) :
    (driverStep m (fun s => s.NodeList.length) runID std d st 1).files
        = st.files ++ [(filePrefix runID d 1 std.1, mkDataCollector m runID std.1 d 1, 3)]
      ∧ writtenFile (fun s => s.NodeList.length) (runTuple m runID std.1 std.2 d 1)
        = (filePrefix runID d 1 std.1, mkDataCollector m runID std.1 d 1, 2) := by
  constructor
  · simp [driverStep, h, forRange, List.range_succ, trafficStepAt, AddApplication,
      ConfigSetDestination, List.replicate]
  · simp [writtenFile, simulationOf, runTuple, traffic, forRange, List.range_succ, trafficStep,
      AddApplication, ConfigSetDestination, List.replicate]

end Driver

/-! ## Decimal rendering is injective -/

theorem digitChar_decode (d : Nat) (h : d < 10) : (Nat.digitChar d).toNat - 48 = d := by
  interval_cases d <;> rfl

theorem toDigitsCore_append (fuel n : Nat) (ds : List Char) :
    Nat.toDigitsCore 10 fuel n ds = Nat.toDigitsCore 10 fuel n [] ++ ds := by
  induction fuel generalizing n ds with
  | zero => simp [Nat.toDigitsCore]
  | succ fuel ih =>
    simp only [Nat.toDigitsCore]
    by_cases h : n / 10 = 0
    · simp [h]
    · simp only [h, if_false]
      rw [ih (n / 10) (Nat.digitChar (n % 10) :: ds), ih (n / 10) [Nat.digitChar (n % 10)]]
      simp

theorem decodeDigits_append_singleton (cs : List Char) (c : Char) :
    decodeDigits (cs ++ [c]) = decodeDigits cs * 10 + (c.toNat - 48) := by
  simp [decodeDigits]

theorem decodeDigits_toDigitsCore (fuel n : Nat) (h : n < fuel) :
    decodeDigits (Nat.toDigitsCore 10 fuel n []) = n := by
  induction fuel generalizing n with
  | zero => omega
  | succ fuel ih =>
    simp only [Nat.toDigitsCore]
    by_cases h0 : n / 10 = 0
    · have hn : n < 10 := by omega
      simp only [h0, if_true]
      have e := decodeDigits_append_singleton [] (Nat.digitChar (n % 10))
      simp only [List.nil_append] at e
      rw [e, digitChar_decode (n % 10) (Nat.mod_lt _ (by decide))]
      simp only [decodeDigits, List.foldl_nil]
      omega
    · simp only [h0, if_false]
      rw [toDigitsCore_append, decodeDigits_append_singleton,
        digitChar_decode (n % 10) (Nat.mod_lt _ (by decide)), ih (n / 10) (by omega)]
      omega

theorem nat_repr_injective (a b : Nat) (h : Nat.repr a = Nat.repr b) : a = b := by
  have h2 : Nat.toDigits 10 a = Nat.toDigits 10 b := by
    have := congrArg String.data h
    simpa [Nat.repr, List.asString] using this
  have ha := decodeDigits_toDigitsCore (a + 1) a (by omega)
  have hb := decodeDigits_toDigitsCore (b + 1) b (by omega)
  simp only [Nat.toDigits] at h2
  rw [h2] at ha
  omega

theorem int_toString_injective_of_nonneg (i j : Int) (hi : 0 ≤ i) (hj : 0 ≤ j)
    (h : toString i = toString j) : i = j := by
  obtain ⟨a, rfl⟩ := Int.eq_ofNat_of_zero_le hi
  obtain ⟨b, rfl⟩ := Int.eq_ofNat_of_zero_le hj
  have h2 : Nat.repr a = Nat.repr b := h
  rw [nat_repr_injective a b h2]

theorem nodeContext_injective_of_nonneg (i j : Int) (hi : 0 ≤ i) (hj : 0 ≤ j)
    (h : "node[" ++ (toString i ++ "]") = "node[" ++ (toString j ++ "]")) : i = j :=
  int_toString_injective_of_nonneg i j hi hj
    (string_append_right_cancel (string_append_left_cancel h))

/-! ## Keys and contexts of the calculators -/

theorem forRange_zero_nodup (users : Int) : (forRange 0 (users - 1)).Nodup := by
  rw [forRange]
  refine List.Nodup.map ?_ (List.nodup_range _)
  intro a b h
  simp only at h
  omega

theorem mem_forRange_zero (users i : Int) (h : i ∈ forRange 0 (users - 1)) : 0 ≤ i := by
  simp only [forRange, List.mem_map, List.mem_range] at h
  obtain ⟨j, _, rfl⟩ := h
  omega

theorem countP_appTx_map_rx (l : List Int) :
    (l.map rxFrameCalculator).countP
      (fun c => decide (c.Key = "sender-tx-packets" ∧ c.Context = "node[0]")) = 0 := by
  induction l with
  | nil => rfl
  | cons a l ih =>
    rw [List.map_cons, List.countP_cons_of_neg]
    · exact ih
    · simp [rxFrameCalculator]

theorem countP_appTx_triples (l : List Int) :
    (l.flatMap (fun i => [appTxCalculator i, appRxCalculator i, delayCalculator i])).countP
      (fun c => decide (c.Key = "sender-tx-packets" ∧ c.Context = "node[0]")) = l.length := by
  induction l with
  | nil => rfl
  | cons a l ih =>
    simp only [List.flatMap_cons, List.countP_append, ih, List.length_cons]
    simp [List.countP_cons, appTxCalculator, appRxCalculator, delayCalculator]
    omega

theorem countP_delay_map_rx (l : List Int) :
    (l.map rxFrameCalculator).countP
      (fun c => decide (c.Key = "delay" ∧ c.Context = ".")) = 0 := by
  induction l with
  | nil => rfl
  | cons a l ih =>
    rw [List.map_cons, List.countP_cons_of_neg]
    · exact ih
    · simp [rxFrameCalculator]

theorem countP_delay_triples (l : List Int) :
    (l.flatMap (fun i => [appTxCalculator i, appRxCalculator i, delayCalculator i])).countP
      (fun c => decide (c.Key = "delay" ∧ c.Context = ".")) = l.length := by
  induction l with
  | nil => rfl
  | cons a l ih =>
    simp only [List.flatMap_cons, List.countP_append, ih, List.length_cons]
    simp [List.countP_cons, appTxCalculator, appRxCalculator, delayCalculator]
    omega

theorem filter_rxFrames_map_rx (l : List Int) :
    (l.map rxFrameCalculator).filter (fun c => decide (c.Key = "wifi-rx-frames"))
      = l.map rxFrameCalculator := by
  induction l with
  | nil => rfl
  | cons a l ih =>
    rw [List.map_cons, List.filter_cons_of_pos, ih]
    simp [rxFrameCalculator]

theorem filter_rxFrames_triples (l : List Int) :
    (l.flatMap (fun i => [appTxCalculator i, appRxCalculator i, delayCalculator i])).filter
      (fun c => decide (c.Key = "wifi-rx-frames")) = [] := by
  induction l with
  | nil => rfl
  | cons a l ih =>
    simp only [List.flatMap_cons, List.filter_append, ih]
    simp [List.filter_cons, appTxCalculator, appRxCalculator, delayCalculator]

theorem filter_appRx_map_rx (l : List Int) :
    (l.map rxFrameCalculator).filter (fun c => decide (c.Key = "receiver-rx-packets")) = [] := by
  induction l with
  | nil => rfl
  | cons a l ih =>
    rw [List.map_cons, List.filter_cons_of_neg, ih]
    simp [rxFrameCalculator]

theorem filter_appRx_triples (l : List Int) :
    (l.flatMap (fun i => [appTxCalculator i, appRxCalculator i, delayCalculator i])).filter
      (fun c => decide (c.Key = "receiver-rx-packets")) = l.map appRxCalculator := by
  induction l with
  | nil => rfl
  | cons a l ih =>
    simp only [List.flatMap_cons, List.filter_append, ih, List.map_cons]
    simp [List.filter_cons, appTxCalculator, appRxCalculator, delayCalculator]

theorem calculatorsFor_triple_getElem? (k : Int) (n : Nat) :
    (calculatorsFor k)[k.toNat + 1 + n]?
      = ((forRange 0 (k - 1)).flatMap (fun i =>
          [appTxCalculator i, appRxCalculator i, delayCalculator i]))[n]? := by
  have hlen : ((forRange 1 k).map rxFrameCalculator).length = k.toNat := by
    simp [length_forRange_one]
  have e : k.toNat + 1 + n = (k.toNat + n) + 1 := by omega
  rw [calculatorsFor, e, List.getElem?_cons_succ,
    List.getElem?_append_right (by rw [hlen]; omega), hlen]
  congr 1
  omega

/-! ## Claims -/

/-- C1: the sweep runs one simulation and writes one file for every element of the Cartesian
product of standards, distances and user counts, in nested order (standard outermost, user
count innermost); with the hard-coded lists there are exactly 48 run tuples, none of them
twice, the first being `(WiFi6_80211ax, 0, 1)` and the last `(WiFi7_80211be, 150, 50)`. -/
theorem C1_sweep_is_cartesian_product {α : Type} [LinearOrderedField α] [FloorRing α]
    (m : StdLib α) (now : Int) :
    (∀ (runID : String) (S : List (String × WifiStandard)) (D : List α) (U : List Int),
        (sweep m runID S D U).runs.map Run.tuple
            = List.product (S.map Prod.fst) (List.product D U)
          ∧ (sweep m runID S D U).files = (sweep m runID S D U).runs.map fileOf)
      ∧ ((main m now).runs.map Run.tuple).length = 48
      ∧ (main m now).files.length = 48
      ∧ ((main m now).runs.map Run.tuple).Nodup
      ∧ ((main m now).runs.map Run.tuple).head? = some ("WiFi6_80211ax", 0, 1)
      ∧ ((main m now).runs.map Run.tuple).getLast? = some ("WiFi7_80211be", 150, 50) := by
  refine ⟨fun runID S D U => ⟨sweep_tuples m runID S D U, sweep_files m runID S D U⟩, ?_⟩
  have ht : (main m now).runs.map Run.tuple
      = List.product (wifiStandards.map Prod.fst) (List.product distances userCounts) :=
    sweep_tuples m (mkRunID now) wifiStandards distances userCounts
  have hf : (main m now).files.length = ((main m now).runs.map Run.tuple).length := by
    unfold main
    rw [sweep_files]
    simp
  rw [hf, ht]
  refine ⟨?_, ?_, ?_, ?_, ?_⟩
  · simp [List.product, wifiStandards, distances, userCounts]
  · simp [List.product, wifiStandards, distances, userCounts]
  · refine List.Nodup.product ?_ (List.Nodup.product distances_nodup ?_)
    · decide
    · decide
  · simp [List.product, wifiStandards, distances, userCounts]
  · simp [List.product, wifiStandards, distances, userCounts]

/-- C2: within one sweep execution (fixed `runID`) the output file prefix is injective on the
run tuples of the hard-coded sweep: two tuples with equal file prefixes are equal, and the
list of file names written by the sweep has no duplicate, so no run overwrites the file of
another run. -/
theorem C2_filePrefix_injective_on_sweep {α : Type} [LinearOrderedField α] [FloorRing α]
    (m : StdLib α) (runID : String) (t1 t2 : String × α × Int)
    (h1 : t1 ∈ List.product (wifiStandards.map Prod.fst) (List.product distances userCounts))
    (h2 : t2 ∈ List.product (wifiStandards.map Prod.fst) (List.product distances userCounts))
    (h : filePrefix runID t1.2.1 t1.2.2 t1.1 = filePrefix runID t2.2.1 t2.2.2 t2.1) :
    t1 = t2
      ∧ ((sweep m runID wifiStandards distances userCounts).files.map Prod.fst).Nodup := by
  have inj : ∀ a ∈ List.product (wifiStandards.map Prod.fst)
        (List.product (distances : List α) userCounts),
      ∀ b ∈ List.product (wifiStandards.map Prod.fst)
        (List.product (distances : List α) userCounts),
      filePrefix runID a.2.1 a.2.2 a.1 = filePrefix runID b.2.1 b.2.2 b.1 → a = b := by
    intro a ha b hb hab
    rw [filePrefix_eq_suffix, filePrefix_eq_suffix] at hab
    exact List.inj_on_of_nodup_map hardCoded_suffixes_nodup ha hb (string_append_left_cancel hab)
  refine ⟨inj t1 h1 t2 h2 h, ?_⟩
  rw [sweep_fileNames]
  refine List.Nodup.map_on (fun a ha b hb hab => inj a ha b hb hab) ?_
  exact List.Nodup.product (by decide) (List.Nodup.product distances_nodup (by decide))

/-- C2 (witness): the hypotheses hold at the first tuple of the sweep over the rationals (the
library functions, which file names do not use, are replaced by stand-ins). -/
theorem C2_filePrefix_injective_on_sweep_witness :
    (("WiFi6_80211ax", (0 : ℚ), (1 : Int)) : String × ℚ × Int) = ("WiFi6_80211ax", 0, 1)
      ∧ ((sweep (StdLib.mk 3 id id (fun _ => "")) "run-0" wifiStandards (distances : List ℚ)
            userCounts).files.map Prod.fst).Nodup :=
  C2_filePrefix_injective_on_sweep (StdLib.mk 3 id id (fun _ => "")) "run-0"
    ("WiFi6_80211ax", 0, 1) ("WiFi6_80211ax", 0, 1)
    (by simp [List.product, wifiStandards, distances, userCounts])
    (by simp [List.product, wifiStandards, distances, userCounts])
    rfl

/-- C4 (counterexample): for the first tuple of the sweep, the file names of two executions
with run ids `run-1` and `run-2` contain the run id and differ. -/
theorem C4_counterexample :
    filePrefix "run-1" (0 : ℚ) 1 "WiFi6_80211ax" = "DataOfUser1-run-1-0m-1users-WiFi6_80211ax"
      ∧ filePrefix "run-2" (0 : ℚ) 1 "WiFi6_80211ax" = "DataOfUser1-run-2-0m-1users-WiFi6_80211ax"
      ∧ filePrefix "run-1" (0 : ℚ) 1 "WiFi6_80211ax"
          ≠ filePrefix "run-2" (0 : ℚ) 1 "WiFi6_80211ax" := by
  have e1 : filePrefix "run-1" (0 : ℚ) 1 "WiFi6_80211ax"
      = "DataOfUser1-run-1-0m-1users-WiFi6_80211ax" := by
    simp only [filePrefix, castToInt, le_refl, if_true, Int.floor_zero]
    decide
  have e2 : filePrefix "run-2" (0 : ℚ) 1 "WiFi6_80211ax"
      = "DataOfUser1-run-2-0m-1users-WiFi6_80211ax" := by
    simp only [filePrefix, castToInt, le_refl, if_true, Int.floor_zero]
    decide
  refine ⟨e1, e2, ?_⟩
  rw [e1, e2]
  decide

/-- C4 (amended): the output file name of the active code path is derived from the run id
together with the tuple: for one tuple, two run ids give the same file name exactly when the
run ids are equal, so executions with different run ids write differently named files. -/
theorem C4_filePrefix_depends_on_runID {α : Type} [LinearOrderedField α] [FloorRing α]
    (runID1 runID2 : String) (d : α) (users : Int) (stdName : String) :
    filePrefix runID1 d users stdName = filePrefix runID2 d users stdName ↔ runID1 = runID2 := by
  constructor
  · intro h
    have e1 := filePrefix_eq_suffix runID1 ((stdName, d, users) : String × α × Int)
    have e2 := filePrefix_eq_suffix runID2 ((stdName, d, users) : String × α × Int)
    simp only at e1 e2
    rw [e1, e2] at h
    have h3 := string_append_right_cancel h
    exact string_append_right_cancel (string_append_left_cancel h3)
  · intro h
    rw [h]

/-- C5: for `userCount = k > 1` and every distance `d`, over the reals, the position list
handed to the allocator is the origin followed by exactly `k` endpoint positions, the `i`-th
(`i = 1..k`) being `(d*cos(2*pi*(i-1)/k), d*sin(2*pi*(i-1)/k), 0)`; every endpoint satisfies
`x^2 + y^2 = d^2` and `z = 0`, and each endpoint is the previous one rotated about the
coordinator by the angle `2*pi/k`. -/
theorem C5_circular_placement (showDouble : ℝ → String) (d : ℝ) (k : Int) (hk : 1 < k) :
    (positions (StdLib.mk Real.pi Real.cos Real.sin showDouble) d k).length = k.toNat + 1
      ∧ (positions (StdLib.mk Real.pi Real.cos Real.sin showDouble) d k)[0]?
          = some (Vector.mk 0 0 0)
      ∧ (∀ i : Nat, 1 ≤ i → i ≤ k.toNat →
          (positions (StdLib.mk Real.pi Real.cos Real.sin showDouble) d k)[i]?
            = some (Vector.mk (d * Real.cos (2 * Real.pi * ((i : ℝ) - 1) / (k : ℝ)))
                (d * Real.sin (2 * Real.pi * ((i : ℝ) - 1) / (k : ℝ))) 0))
      ∧ (∀ p ∈ (positions (StdLib.mk Real.pi Real.cos Real.sin showDouble) d k).tail,
          p.x ^ 2 + p.y ^ 2 = d ^ 2 ∧ p.z = 0)
      ∧ (∀ (i : Nat) (p q : Vector ℝ), 1 ≤ i → i < k.toNat →
          (positions (StdLib.mk Real.pi Real.cos Real.sin showDouble) d k)[i]? = some p →
          (positions (StdLib.mk Real.pi Real.cos Real.sin showDouble) d k)[i + 1]? = some q →
          q.x = p.x * Real.cos (2 * Real.pi / (k : ℝ)) - p.y * Real.sin (2 * Real.pi / (k : ℝ))
            ∧ q.y = p.x * Real.sin (2 * Real.pi / (k : ℝ))
                + p.y * Real.cos (2 * Real.pi / (k : ℝ))
            ∧ q.z = p.z) := by
  have hne : k ≠ 1 := by omega
  have hkR : (k : ℝ) ≠ 0 := by
    have : (0 : ℝ) < (k : ℝ) := by exact_mod_cast (by omega : (0 : Int) < k)
    exact ne_of_gt this
  have hpos := positions_circle (StdLib.mk Real.pi Real.cos Real.sin showDouble) d k hne
  have hget : ∀ i : Nat, 1 ≤ i → i ≤ k.toNat →
      (positions (StdLib.mk Real.pi Real.cos Real.sin showDouble) d k)[i]?
        = some (Vector.mk (d * Real.cos (2 * Real.pi * ((i : ℝ) - 1) / (k : ℝ)))
            (d * Real.sin (2 * Real.pi * ((i : ℝ) - 1) / (k : ℝ))) 0) := by
    intro i h1 h2
    obtain ⟨j, rfl⟩ : ∃ j, i = j + 1 := ⟨i - 1, by omega⟩
    have hj : j < k.toNat := by omega
    rw [hpos, List.getElem?_cons_succ, forRange_one, List.map_map, List.getElem?_map,
      List.getElem?_range hj]
    simp [circlePoint]
  refine ⟨?_, ?_, hget, ?_, ?_⟩
  · rw [hpos]
    simp [length_forRange_one]
  · rw [hpos]
    simp
  · intro p hp
    rw [hpos] at hp
    simp only [List.tail_cons, List.mem_map] at hp
    obtain ⟨i, _, rfl⟩ := hp
    simp only [circlePoint]
    refine ⟨?_, trivial⟩
    have := Real.cos_sq_add_sin_sq (2 * Real.pi * ((i - 1 : Int) : ℝ) / (k : ℝ))
    nlinarith [this]
  · intro i p q h1 h2 hp hq
    rw [hget i h1 (by omega)] at hp
    rw [hget (i + 1) (by omega) (by omega)] at hq
    cases hp
    cases hq
    have ha : 2 * Real.pi * (((i + 1 : Nat) : ℝ) - 1) / (k : ℝ)
        = 2 * Real.pi * ((i : ℝ) - 1) / (k : ℝ) + 2 * Real.pi / (k : ℝ) := by
      push_cast
      field_simp
      ring
    simp only [ha, Real.cos_add, Real.sin_add]
    refine ⟨by ring, by ring, trivial⟩

/-- C5 (witness): ten endpoints at distance 30 lie on the circle of radius 30. -/
theorem C5_circular_placement_witness :
    (1 : Int) < 10
      ∧ (positions (StdLib.mk Real.pi Real.cos Real.sin (fun _ => "")) 30 10).length
          = (10 : Int).toNat + 1
      ∧ ∀ p ∈ (positions (StdLib.mk Real.pi Real.cos Real.sin (fun _ => "")) 30 10).tail,
          p.x ^ 2 + p.y ^ 2 = (30 : ℝ) ^ 2 ∧ p.z = 0 :=
  ⟨by decide, (C5_circular_placement (fun _ => "") 30 10 (by decide)).1,
    (C5_circular_placement (fun _ => "") 30 10 (by decide)).2.2.2.1⟩

/-- C6: for `userCount = 1` and every distance `d` the position list handed to the allocator
is exactly `[(0, 0, 0), (0, d, 0)]`: the coordinator at the origin and the single endpoint at
`(0, d, 0)`; this is the list recorded for every run of a sweep whose user count is 1. -/
theorem C6_single_endpoint_position {α : Type} [LinearOrderedField α] [FloorRing α]
    (m : StdLib α) (d : α) :
    positions m d 1 = [Vector.mk 0 0 0, Vector.mk 0 d 0]
      ∧ ∀ (runID stdName : String) (stdType : WifiStandard),
          (runTuple m runID stdName stdType d 1).positions = [Vector.mk 0 0 0, Vector.mk 0 d 0] :=
  ⟨positions_single m d, fun _ _ _ => positions_single m d⟩

/-- C7: the send interval computed for every flow is `(packetSize * 8) / (bitRate * 1000)`
seconds with `packetSize = 1000` bytes (the `PacketSize` attribute of the sender) and
`bitRate = 5000` kbps, that is `8000 / 5000000 = 1/625 = 0.0016`; in every run tuple the
sender of every flow `i = 1..users` carries this one value in its `Interval` attribute. -/
theorem C7_transmission_interval {α : Type} [LinearOrderedField α] [FloorRing α]
    (m : StdLib α) (runID stdName : String) (stdType : WifiStandard) (d : α) (users : Int)
    (i : Nat) (hu : users < 2 ^ 31) (h1 : 1 ≤ i) (h2 : (i : Int) ≤ users) :
    (transmissionInterval : α) = (1000 * 8) / (bitRate * 1000)
      ∧ (transmissionInterval : α) = 8000 / 5000000
      ∧ (transmissionInterval : α) = 1 / 625
      ∧ (transmissionInterval : α) = 0.0016
      ∧ ∃ s : Sender,
          ((runTuple m runID stdName stdType d users).nodes.getD 0 [])[i - 1]?
              = some (Application.sender s)
            ∧ s.PacketSize = 1000
            ∧ s.Interval
                = "ns3::ConstantRandomVariable[Constant=" ++ (m.showDouble (1 / 625) ++ "]") := by
  have e1 : (transmissionInterval : α) = (1000 * 8) / (bitRate * 1000) := by
    simp only [transmissionInterval]
    norm_num
  have e3 : (transmissionInterval : α) = 1 / 625 := by
    rw [e1]
    simp only [bitRate]
    norm_num
  refine ⟨e1, by rw [e3]; norm_num, e3, by rw [e3]; norm_num, ?_⟩
  obtain ⟨j, rfl⟩ : ∃ j, i = j + 1 := ⟨i - 1, by omega⟩
  have hj : j < users.toNat := by omega
  refine ⟨senderFor m (1 + (j : Int)), ?_, rfl, ?_⟩
  · simp only [runTuple]
    rw [traffic_eq m users (by omega) hu]
    simp [trafficAfter, hj]
  · simp only [senderFor, e3, string_empty_append, String.append_assoc]

/-- C7 (witness): the second flow of a run with ten users at distance 30, over the
rationals, with a stand-in for the stream output of a `double` that prints nothing. -/
theorem C7_transmission_interval_witness :
    (transmissionInterval : ℚ) = 1 / 625
      ∧ ∃ s : Sender,
          ((runTuple (StdLib.mk (3 : ℚ) id id (fun _ => "")) "run-0" "WiFi6_80211ax"
              WifiStandard.WIFI_STANDARD_80211ax 30 10).nodes.getD 0 [])[2 - 1]?
              = some (Application.sender s)
            ∧ s.PacketSize = 1000
            ∧ s.Interval = "ns3::ConstantRandomVariable[Constant=" ++ ("" ++ "]") :=
  ⟨(C7_transmission_interval (StdLib.mk 3 id id (fun _ => "")) "run-0" "WiFi6_80211ax"
      WifiStandard.WIFI_STANDARD_80211ax (30 : ℚ) 10 2 (by decide) (by decide) (by decide)).2.2.1,
    (C7_transmission_interval (StdLib.mk 3 id id (fun _ => "")) "run-0" "WiFi6_80211ax"
      WifiStandard.WIFI_STANDARD_80211ax (30 : ℚ) 10 2 (by decide) (by decide) (by decide)).2.2.2.2⟩

/-- C8: under sequential address assignment from base 192.168.0.0/24 in node creation order
(node 0 gets 192.168.0.1, node `i` gets 192.168.0.(i+1)), for every user count and every flow
`i` in `1..users` the destination set for flow `i` is `"192.168.0." ++ decimal(i+1)`, the
address of endpoint node `i`; it is set on the path of application index `i-1` of node 0,
and that application is the sender created for endpoint `i` (the one whose port is the port
of the receiver installed on node `i`). -/
theorem C8_destination_matches_address {α : Type} [LinearOrderedField α]
    (m : StdLib α) (users : Int) (i : Nat) (hu : users < 2 ^ 31) (h1 : 1 ≤ i)
    (h2 : (i : Int) ≤ users) :
    (Ipv4Assign (((users + 1) % 2 ^ 32).toNat))[0]? = some "192.168.0.1"
      ∧ (Ipv4Assign (((users + 1) % 2 ^ 32).toNat))[i]?
          = some ("192.168.0." ++ toString ((i : Int) + 1))
      ∧ (traffic m users).configSet[i - 1]?
          = some ("/NodeList/0/ApplicationList/" ++ toString ((i : Int) - 1)
                    ++ "/$Sender/Destination",
                  "192.168.0." ++ toString ((i : Int) + 1))
      ∧ (∃ s : Sender,
          ((traffic m users).nodes.getD 0 [])[i - 1]? = some (Application.sender s)
            ∧ s.Destination = some ("192.168.0." ++ toString ((i : Int) + 1))
            ∧ (traffic m users).nodes[i]?
                = some [Application.receiver { Port := s.Port, StartTime := 0 }]
            ∧ (traffic m users).receivers[i - 1]? = some { Port := s.Port, StartTime := 0 }) := by
  have e : ((users + 1) % 2 ^ 32).toNat = users.toNat + 1 := by omega
  obtain ⟨j, rfl⟩ : ∃ j, i = j + 1 := ⟨i - 1, by omega⟩
  have hj : j < users.toNat := by omega
  have hc : ((j + 1 : Nat) : Int) = 1 + (j : Int) := by omega
  rw [e, traffic_eq m users (by omega) hu]
  refine ⟨?_, ?_, ?_, senderFor m (1 + (j : Int)), ?_, ?_, ?_, ?_⟩
  · simp only [Ipv4Assign, List.range_succ_eq_map, List.map_cons, List.getElem?_cons_zero]
    decide
  · have hj2 : j + 1 < users.toNat + 1 := by omega
    rw [Ipv4Assign, List.getElem?_map, List.getElem?_range hj2]
    rfl
  · simp [trafficAfter, hj, configSetFor, hc, string_empty_append]
  · simp [trafficAfter, hj]
  · simp [senderFor, hc, string_empty_append]
  · have hj3 : (j : Int) < users := by omega
    simp [trafficAfter, hj, hj3, senderFor, receiverFor]
  · simp [trafficAfter, hj, senderFor, receiverFor]

/-- C8 (witness): the second flow of a run with two users (the library functions, which the
destinations do not use, are replaced by stand-ins). -/
theorem C8_destination_matches_address_witness :
    (traffic (StdLib.mk (3 : ℚ) id id (fun _ => "")) 2).configSet[2 - 1]?
        = some ("/NodeList/0/ApplicationList/" ++ toString (((2 : Nat) : Int) - 1)
                  ++ "/$Sender/Destination",
                "192.168.0." ++ toString (((2 : Nat) : Int) + 1))
      ∧ ∃ s : Sender,
          ((traffic (StdLib.mk (3 : ℚ) id id (fun _ => "")) 2).nodes.getD 0 [])[2 - 1]?
              = some (Application.sender s)
            ∧ s.Destination = some ("192.168.0." ++ toString (((2 : Nat) : Int) + 1))
            ∧ (traffic (StdLib.mk (3 : ℚ) id id (fun _ => "")) 2).nodes[2]?
                = some [Application.receiver { Port := s.Port, StartTime := 0 }]
            ∧ (traffic (StdLib.mk (3 : ℚ) id id (fun _ => "")) 2).receivers[2 - 1]?
                = some { Port := s.Port, StartTime := 0 } :=
  ⟨(C8_destination_matches_address (StdLib.mk (3 : ℚ) id id (fun _ => "")) 2 2
      (by decide) (by decide) (by decide)).2.2.1,
    (C8_destination_matches_address (StdLib.mk (3 : ℚ) id id (fun _ => "")) 2 2
      (by decide) (by decide) (by decide)).2.2.2⟩

/-- C9: in a run with one user, the sender of flow 1 and the receiver on node 1 are both
configured with port 1001, whereas the topology diagram of the file header gives user 1 the
port 1000 = 1000 + (1 - 1). -/
theorem C9_first_user_port {α : Type} [LinearOrderedField α] (m : StdLib α) :
    (traffic m 1).nodes
        = [[Application.sender (senderFor m 1)], [Application.receiver (receiverFor 1)]]
      ∧ (senderFor m 1).Port = 1001
      ∧ (receiverFor 1).Port = 1001
      ∧ (senderFor m 1).Port ≠ 1000 + (1 - 1) := by
  rw [traffic_eq m 1 (by decide) (by decide)]
  refine ⟨?_, ?_, ?_, ?_⟩
  · simp [trafficAfter, List.range_succ]
  · simp [senderFor]
  · simp [receiverFor]
  · simp [senderFor]

/-- C10: the sweep run with `standards = [A]`, `distances = [0]`, `userCounts = [1]` performs
exactly one simulation run and writes exactly one output file, and in that run the
coordinator position and the position of the single endpoint are both `(0, 0, 0)`. -/
theorem C10_single_tuple_sweep {α : Type} [LinearOrderedField α] [FloorRing α]
    (m : StdLib α) (runID : String) (A : String × WifiStandard) :
    (sweep m runID [A] [0] [1]).runs = [runTuple m runID A.1 A.2 0 1]
      ∧ (sweep m runID [A] [0] [1]).runs.length = 1
      ∧ (sweep m runID [A] [0] [1]).files
          = [(filePrefix runID (0 : α) 1 A.1, mkDataCollector m runID A.1 0 1)]
      ∧ (sweep m runID [A] [0] [1]).files.length = 1
      ∧ (runTuple m runID A.1 A.2 0 1).users = 1
      ∧ (runTuple m runID A.1 A.2 0 1).distance = 0
      ∧ (runTuple m runID A.1 A.2 0 1).positions = [Vector.mk 0 0 0, Vector.mk 0 0 0]
      ∧ (runTuple m runID A.1 A.2 0 1).positions[0]?
          = (runTuple m runID A.1 A.2 0 1).positions[1]? := by
  have hp : (runTuple m runID A.1 A.2 0 1).positions = [Vector.mk 0 0 0, Vector.mk 0 0 0] :=
    positions_single m 0
  refine ⟨by simp [sweep, sweepStep], by simp [sweep, sweepStep], ?_, by simp [sweep, sweepStep],
    rfl, rfl, hp, ?_⟩
  · simp [sweep, sweepStep, runTuple]
  · rw [hp]
    simp

/-- C13: for every run tuple with `userCount = k` one data collector is built, the one that
is written to the file of the run, and it receives exactly `4k + 1` calculators in this
order: one "wifi-tx-frames" counter with context "node[0]"; then for `i = 1..k` one
"wifi-rx-frames" counter with context "node[i]" connected to the MacRx trace of node `i`;
then for `i = 0..k-1` the triple of "sender-tx-packets" at "node[0]" connected to application
`i` of node 0, "receiver-rx-packets" at "node[i+1]" given to receiver `i`, and "delay" given
to receiver `i`. -/
theorem C13_calculators_of_a_run {α : Type} [LinearOrderedField α] [FloorRing α]
    (m : StdLib α) (runID stdName : String) (stdType : WifiStandard) (d : α) (k : Int)
    (i : Nat) (hi : i < k.toNat) :
    (runTuple m runID stdName stdType d k).dataCollector = mkDataCollector m runID stdName d k
      ∧ (∀ (S : List (String × WifiStandard)) (D : List α) (U : List Int),
          (sweep m runID S D U).files.map Prod.snd
            = (sweep m runID S D U).runs.map (fun r => r.dataCollector))
      ∧ (mkDataCollector m runID stdName d k).calculators.length = 4 * k.toNat + 1
      ∧ (mkDataCollector m runID stdName d k).calculators[0]?
          = some { type := CalculatorType.CounterCalculator_uint32, Key := "wifi-tx-frames",
                   Context := "node[0]",
                   feed := Feed.connect "/NodeList/0/DeviceList/*/$ns3::WifiNetDevice/Mac/MacTx"
                     "TxCallback" }
      ∧ (mkDataCollector m runID stdName d k).calculators[i + 1]?
          = some { type := CalculatorType.PacketCounterCalculator, Key := "wifi-rx-frames",
                   Context := "node[" ++ (toString ((i : Int) + 1) ++ "]"),
                   feed := Feed.connect
                     ("/NodeList/" ++ (toString ((i : Int) + 1)
                       ++ "/DeviceList/*/$ns3::WifiNetDevice/Mac/MacRx"))
                     "PacketCounterCalculator::PacketUpdate" }
      ∧ (mkDataCollector m runID stdName d k).calculators[k.toNat + 1 + 3 * i]?
          = some { type := CalculatorType.PacketCounterCalculator, Key := "sender-tx-packets",
                   Context := "node[0]",
                   feed := Feed.connect
                     ("/NodeList/0/ApplicationList/" ++ (toString (i : Int) ++ "/$Sender/Tx"))
                     "PacketCounterCalculator::PacketUpdate" }
      ∧ (mkDataCollector m runID stdName d k).calculators[k.toNat + 1 + 3 * i + 1]?
          = some { type := CalculatorType.CounterCalculator, Key := "receiver-rx-packets",
                   Context := "node[" ++ (toString ((i : Int) + 1) ++ "]"),
                   feed := Feed.setCounter (i : Int) }
      ∧ (mkDataCollector m runID stdName d k).calculators[k.toNat + 1 + 3 * i + 2]?
          = some { type := CalculatorType.TimeMinMaxAvgTotalCalculator, Key := "delay",
                   Context := ".", feed := Feed.setDelayTracker (i : Int) } := by
  have hc := mkDataCollector_calculators m runID stdName d k
  have hlen : ((forRange 1 k).map rxFrameCalculator).length = k.toNat := by
    simp [length_forRange_one]
  have ht := flatMap_triple_getElem? (forRange 0 (k - 1)) i (i : Int)
    (forRange_zero_getElem? k i hi)
  have hidx : ∀ j : Nat, (calculatorsFor k)[k.toNat + 1 + 3 * i + j]?
      = ((forRange 0 (k - 1)).flatMap (fun i =>
          [appTxCalculator i, appRxCalculator i, delayCalculator i]))[3 * i + j]? := by
    intro j
    have e : k.toNat + 1 + 3 * i + j = (k.toNat + (3 * i + j)) + 1 := by omega
    rw [calculatorsFor, e, List.getElem?_cons_succ,
      List.getElem?_append_right (by rw [hlen]; omega), hlen]
    congr 1
    omega
  refine ⟨rfl, ?_, ?_, ?_, ?_, ?_, ?_, ?_⟩
  · intro S D U
    rw [sweep_files, List.map_map]
    rfl
  · rw [hc, length_calculatorsFor]
  · rw [hc]
    simp [calculatorsFor, txFrameCalculator]
  · rw [hc, calculatorsFor, List.getElem?_cons_succ,
      List.getElem?_append_left (by rw [hlen]; exact hi), List.getElem?_map,
      forRange_one_getElem? k i hi]
    simp [rxFrameCalculator, add_comm]
  · have h0 := hidx 0
    simp only [Nat.add_zero] at h0
    rw [hc, h0, ht.1]
    rfl
  · rw [hc, hidx 1, ht.2.1]
    rfl
  · rw [hc, hidx 2, ht.2.2]
    rfl

/-- C13 (witness): the third flow of a run with ten users; its "delay" calculator is at
index 19 of the 41 calculators. -/
theorem C13_calculators_of_a_run_witness :
    (mkDataCollector (StdLib.mk (3 : ℚ) id id (fun _ => "")) "run-0" "WiFi6_80211ax"
        30 10).calculators.length = 4 * (10 : Int).toNat + 1
      ∧ (mkDataCollector (StdLib.mk (3 : ℚ) id id (fun _ => "")) "run-0" "WiFi6_80211ax"
          30 10).calculators[(10 : Int).toNat + 1 + 3 * 2 + 2]?
          = some { type := CalculatorType.TimeMinMaxAvgTotalCalculator, Key := "delay",
                   Context := ".", feed := Feed.setDelayTracker ((2 : Nat) : Int) } :=
  ⟨(C13_calculators_of_a_run (StdLib.mk (3 : ℚ) id id (fun _ => "")) "run-0" "WiFi6_80211ax"
      WifiStandard.WIFI_STANDARD_80211ax 30 10 2 (by decide)).2.2.1,
    (C13_calculators_of_a_run (StdLib.mk (3 : ℚ) id id (fun _ => "")) "run-0" "WiFi6_80211ax"
      WifiStandard.WIFI_STANDARD_80211ax 30 10 2 (by decide)).2.2.2.2.2.2.2⟩

/-- C12: the single-endpoint placement is not an instance of the circular formula. The
placement step takes the circular branch only for `userCount != 1`; evaluated at
`userCount = 1`, `i = 1`, the circular formula has angle 0 and gives `(d, 0, 0)`, whereas
the single-endpoint branch places the endpoint at `(0, d, 0)`; the two agree exactly when
`d = 0`. -/
theorem C12_single_endpoint_not_circular (showDouble : ℝ → String) (d : ℝ) :
    (∀ (users : Int) (acc : List (Vector ℝ)) (i : Int),
        positionStep (StdLib.mk Real.pi Real.cos Real.sin showDouble) d users acc i
          = if users = 1 then acc ++ [Vector.mk 0 d 0]
            else acc ++ [Vector.mk
              (d * Real.cos (2 * Real.pi * ((i - 1 : Int) : ℝ) / (users : ℝ)))
              (d * Real.sin (2 * Real.pi * ((i - 1 : Int) : ℝ) / (users : ℝ))) 0])
      ∧ 2 * Real.pi * (((1 : Int) - 1 : Int) : ℝ) / ((1 : Int) : ℝ) = 0
      ∧ circlePoint (StdLib.mk Real.pi Real.cos Real.sin showDouble) d 1 1 = Vector.mk d 0 0
      ∧ (positions (StdLib.mk Real.pi Real.cos Real.sin showDouble) d 1)[1]?
          = some (Vector.mk 0 d 0)
      ∧ (circlePoint (StdLib.mk Real.pi Real.cos Real.sin showDouble) d 1 1
            = Vector.mk 0 d 0 ↔ d = 0) := by
  have hc : circlePoint (StdLib.mk Real.pi Real.cos Real.sin showDouble) d 1 1
      = Vector.mk d 0 0 := by
    simp [circlePoint]
  refine ⟨?_, by simp, hc, ?_, ?_⟩
  · intro users acc i
    by_cases h : users = 1
    · simp [positionStep, h]
    · simp [positionStep, h]
  · rw [positions_single]
    rfl
  · rw [hc]
    constructor
    · intro h
      simp only [Vector.mk.injEq, and_true] at h
      exact h.1
    · intro h
      rw [h]

/-- C15: for `userCount = k > 1` and `d != 0` the `k` endpoint positions of the circular
placement are pairwise distinct over the reals and none of them equals the coordinator
position, so the whole position list has no repetition; for `d = 0` every position of the
list, coordinator and endpoints alike, is the origin. -/
theorem C15_circular_positions_distinct (showDouble : ℝ → String) (d : ℝ) (k : Int)
    (hk : 1 < k) :
    (d ≠ 0 →
        (∀ i j : Nat, 1 ≤ i → i < j → (j : Int) ≤ k →
          (d * Real.cos (2 * Real.pi * ((i : ℝ) - 1) / (k : ℝ)),
            d * Real.sin (2 * Real.pi * ((i : ℝ) - 1) / (k : ℝ)))
          ≠ (d * Real.cos (2 * Real.pi * ((j : ℝ) - 1) / (k : ℝ)),
              d * Real.sin (2 * Real.pi * ((j : ℝ) - 1) / (k : ℝ))))
          ∧ (∀ p ∈ (positions (StdLib.mk Real.pi Real.cos Real.sin showDouble) d k).tail,
              p ≠ Vector.mk 0 0 0)
          ∧ (positions (StdLib.mk Real.pi Real.cos Real.sin showDouble) d k).Nodup)
      ∧ (d = 0 →
          (positions (StdLib.mk Real.pi Real.cos Real.sin showDouble) d k).length = k.toNat + 1
          ∧ ∀ p ∈ positions (StdLib.mk Real.pi Real.cos Real.sin showDouble) d k,
              p = Vector.mk 0 0 0) := by
  have hne : k ≠ 1 := by omega
  have hpos := positions_circle (StdLib.mk Real.pi Real.cos Real.sin showDouble) d k hne
  refine ⟨fun hd => ⟨?_, ?_, ?_⟩, fun hd => ⟨?_, ?_⟩⟩
  · intro i j hi hij hj h
    have hij2 : (i : Int) = (j : Int) := by
      apply circlePoint_real_inj showDouble d k (i : Int) (j : Int) hk hd
        (by omega) (by omega) (by omega) hj
      simp only [Prod.mk.injEq] at h
      simp only [circlePoint, Vector.mk.injEq, and_true]
      push_cast
      exact h
    omega
  · intro p hp
    rw [hpos] at hp
    simp only [List.tail_cons, List.mem_map] at hp
    obtain ⟨i, _, rfl⟩ := hp
    exact circlePoint_real_ne_origin showDouble d k i hd
  · rw [hpos, List.nodup_cons]
    constructor
    · intro hmem
      simp only [List.mem_map] at hmem
      obtain ⟨i, _, hi⟩ := hmem
      exact circlePoint_real_ne_origin showDouble d k i hd hi
    · refine List.Nodup.map_on ?_ (forRange_one_nodup k)
      intro i hi j hj hij
      rw [mem_forRange_one] at hi hj
      exact circlePoint_real_inj showDouble d k i j hk hd hi.1 hi.2 hj.1 hj.2 hij
  · rw [hpos]
    simp [length_forRange_one]
  · intro p hp
    rw [hpos, hd] at hp
    simp only [List.mem_cons, List.mem_map] at hp
    rcases hp with rfl | ⟨i, _, rfl⟩
    · rfl
    · simp [circlePoint]

/-- C15 (witness): ten endpoints at distance 30 and the coordinator are pairwise distinct. -/
theorem C15_circular_positions_distinct_witness :
    (1 : Int) < 10 ∧ (30 : ℝ) ≠ 0
      ∧ (positions (StdLib.mk Real.pi Real.cos Real.sin (fun _ => "")) 30 10).Nodup :=
  ⟨by decide, by norm_num,
    ((C15_circular_positions_distinct (fun _ => "") 30 10 (by decide)).1 (by norm_num)).2.2⟩

/-- C11: state of one run tuple does not leak into the next. With the driver state explicit
(engine node list with the application lists, receiver list, data collector, prefix held by
the output writer), whatever run tuples `earlier` were executed before an iteration, the
iteration starts with an empty node list, an empty receiver list and no collector in scope;
it simulates the run that the loop body builds from its own tuple and the run id, and it
writes the file prefix, the collector and the values measured by the engine on that
simulation, all of them functions of its tuple and the run id only. The three nested loops
are such a sequence of iterations. -/
theorem C11_no_state_leak {α μ : Type} [LinearOrderedField α] [FloorRing α]
    (m : StdLib α) (simulate : Simulation α → μ) (runID outputPrefix : String)
    (earlier : List ((String × WifiStandard) × α × Int))
    (std : String × WifiStandard) (d : α) (users : Int) :
    (driverRuns m simulate runID earlier (driverInit outputPrefix)).NodeList = []
      ∧ (driverRuns m simulate runID earlier (driverInit outputPrefix)).receivers = []
      ∧ (driverRuns m simulate runID earlier (driverInit outputPrefix)).dataCollector = none
      ∧ (driverStep m simulate runID std d
            (driverRuns m simulate runID earlier (driverInit outputPrefix)) users).runs
          = (driverRuns m simulate runID earlier (driverInit outputPrefix)).runs
              ++ [runTuple m runID std.1 std.2 d users]
      ∧ (driverStep m simulate runID std d
            (driverRuns m simulate runID earlier (driverInit outputPrefix)) users).files
          = (driverRuns m simulate runID earlier (driverInit outputPrefix)).files
              ++ [(filePrefix runID d users std.1, mkDataCollector m runID std.1 d users,
                   simulate
                     { stdType := std.2, positions := positions m d users
                       NodeList := (traffic m users).nodes
                       calculators := (mkDataCollector m runID std.1 d users).calculators })]
      ∧ (∀ (S : List (String × WifiStandard)) (D : List α) (U : List Int),
          driverLoop m simulate runID S D U (driverInit outputPrefix)
              = driverRuns m simulate runID (List.product S (List.product D U))
                  (driverInit outputPrefix)
            ∧ (driverLoop m simulate runID S D U (driverInit outputPrefix)).runs
                = (sweep m runID S D U).runs
            ∧ (driverLoop m simulate runID S D U (driverInit outputPrefix)).files
                = (sweep m runID S D U).runs.map (writtenFile simulate)) := by
  obtain ⟨h1, h2, _, _⟩ :=
    driverRuns_of_fresh m simulate runID earlier (driverInit outputPrefix) rfl
  have hs := driverStep_of_fresh m simulate runID std d
    (driverRuns m simulate runID earlier (driverInit outputPrefix)) users h1
  have hfresh : (driverRuns m simulate runID earlier (driverInit outputPrefix)).receivers = []
      ∧ (driverRuns m simulate runID earlier (driverInit outputPrefix)).dataCollector
          = none := by
    by_cases he : earlier = []
    · subst he
      exact ⟨rfl, rfl⟩
    · exact h2 he
  refine ⟨h1, hfresh.1, hfresh.2, by rw [hs], by rw [hs]; rfl, ?_⟩
  intro S D U
  have hd := driverLoop_eq_driverRuns m simulate runID S D U (driverInit outputPrefix)
  obtain ⟨_, _, g3, g4⟩ := driverRuns_of_fresh m simulate runID
    (List.product S (List.product D U)) (driverInit outputPrefix) rfl
  have hr : (sweep m runID S D U).runs
      = (List.product S (List.product D U)).map
          (fun t => runTuple m runID t.1.1 t.1.2 t.2.1 t.2.2) := by
    rw [sweep_runs]
    simp [List.product, List.map_flatMap, Function.comp_def]
  refine ⟨hd, ?_, ?_⟩
  · rw [hd, g3, hr]
    rfl
  · rw [hd, g4, hr, List.map_map]
    rfl

/-- C11 (witness): after the run with ten users at distance 30 the run with one user at
distance 0 is simulated on its own two nodes; the engine measurement taken here is the
number of nodes in the engine's node list. -/
theorem C11_no_state_leak_witness :
    (driverRuns (StdLib.mk (3 : ℚ) id id (fun _ => "")) (fun s => s.NodeList.length) "run-0"
        [(("WiFi6_80211ax", WifiStandard.WIFI_STANDARD_80211ax), 30, 10)]
        (driverInit "data")).runs.length = 1
      ∧ (driverStep (StdLib.mk (3 : ℚ) id id (fun _ => "")) (fun s => s.NodeList.length) "run-0"
            ("WiFi7_80211be", WifiStandard.WIFI_STANDARD_80211be) 0
            (driverRuns (StdLib.mk (3 : ℚ) id id (fun _ => "")) (fun s => s.NodeList.length)
              "run-0" [(("WiFi6_80211ax", WifiStandard.WIFI_STANDARD_80211ax), 30, 10)]
              (driverInit "data")) 1).files
          = (driverRuns (StdLib.mk (3 : ℚ) id id (fun _ => "")) (fun s => s.NodeList.length)
              "run-0" [(("WiFi6_80211ax", WifiStandard.WIFI_STANDARD_80211ax), 30, 10)]
              (driverInit "data")).files
            ++ [(filePrefix "run-0" (0 : ℚ) 1 "WiFi7_80211be",
                 mkDataCollector (StdLib.mk (3 : ℚ) id id (fun _ => "")) "run-0"
                   "WiFi7_80211be" 0 1,
                 (traffic (StdLib.mk (3 : ℚ) id id (fun _ => "")) 1).nodes.length)]
      ∧ (traffic (StdLib.mk (3 : ℚ) id id (fun _ => "")) 1).nodes.length = 2 :=
  ⟨by simp [driverRuns, driverStep, driverInit],
    (C11_no_state_leak (StdLib.mk (3 : ℚ) id id (fun _ => "")) (fun s => s.NodeList.length)
      "run-0" "data" [(("WiFi6_80211ax", WifiStandard.WIFI_STANDARD_80211ax), 30, 10)]
      ("WiFi7_80211be", WifiStandard.WIFI_STANDARD_80211be) 0 1).2.2.2.2.1,
    by rw [traffic_eq _ 1 (by decide) (by decide)]; simp [trafficAfter]⟩

/-- C14: the pair (key, context) does not identify a calculator within a run. For every run
tuple with `userCount = k`, exactly `k` calculators carry ("sender-tx-packets", "node[0]")
and exactly `k` carry ("delay", "."); for `k >= 2` the calculators of the first two flows
are different calculators with the same key and context; the contexts of the
"wifi-rx-frames" calculators are pairwise distinct, and so are the contexts of the
"receiver-rx-packets" calculators. -/
theorem C14_key_context_not_unique {α : Type} [LinearOrderedField α]
    (m : StdLib α) (runID stdName : String) (d : α) (k : Int) :
    (mkDataCollector m runID stdName d k).calculators.countP
        (fun c => decide (c.Key = "sender-tx-packets" ∧ c.Context = "node[0]")) = k.toNat
      ∧ (mkDataCollector m runID stdName d k).calculators.countP
          (fun c => decide (c.Key = "delay" ∧ c.Context = ".")) = k.toNat
      ∧ (2 ≤ k → ∃ c1 c2 : DataCalculator,
          (mkDataCollector m runID stdName d k).calculators[k.toNat + 1]? = some c1
            ∧ (mkDataCollector m runID stdName d k).calculators[k.toNat + 4]? = some c2
            ∧ c1 ≠ c2
            ∧ c1.Key = "sender-tx-packets" ∧ c2.Key = "sender-tx-packets"
            ∧ c1.Context = "node[0]" ∧ c2.Context = "node[0]")
      ∧ (2 ≤ k → ∃ c1 c2 : DataCalculator,
          (mkDataCollector m runID stdName d k).calculators[k.toNat + 3]? = some c1
            ∧ (mkDataCollector m runID stdName d k).calculators[k.toNat + 6]? = some c2
            ∧ c1 ≠ c2
            ∧ c1.Key = "delay" ∧ c2.Key = "delay"
            ∧ c1.Context = "." ∧ c2.Context = ".")
      ∧ (((mkDataCollector m runID stdName d k).calculators.filter
            (fun c => decide (c.Key = "wifi-rx-frames"))).map (fun c => c.Context)).Nodup
      ∧ (((mkDataCollector m runID stdName d k).calculators.filter
            (fun c => decide (c.Key = "receiver-rx-packets"))).map (fun c => c.Context)).Nodup := by
  rw [mkDataCollector_calculators]
  refine ⟨?_, ?_, ?_, ?_, ?_, ?_⟩
  · rw [calculatorsFor, List.countP_cons_of_neg _ _ (by simp [txFrameCalculator]),
      List.countP_append, countP_appTx_map_rx, countP_appTx_triples, length_forRange_zero]
    omega
  · rw [calculatorsFor, List.countP_cons_of_neg _ _ (by simp [txFrameCalculator]),
      List.countP_append, countP_delay_map_rx, countP_delay_triples, length_forRange_zero]
    omega
  · intro hk
    have t0 := flatMap_triple_getElem? (forRange 0 (k - 1)) 0 ((0 : Nat) : Int)
      (forRange_zero_getElem? k 0 (by omega))
    have t1 := flatMap_triple_getElem? (forRange 0 (k - 1)) 1 ((1 : Nat) : Int)
      (forRange_zero_getElem? k 1 (by omega))
    refine ⟨appTxCalculator ((0 : Nat) : Int), appTxCalculator ((1 : Nat) : Int),
      ?_, ?_, by decide, rfl, rfl, rfl, rfl⟩
    · have := calculatorsFor_triple_getElem? k 0
      rw [Nat.add_zero] at this
      rw [this]
      exact t0.1
    · have := calculatorsFor_triple_getElem? k 3
      rw [show k.toNat + 4 = k.toNat + 1 + 3 by omega, this]
      exact t1.1
  · intro hk
    have t0 := flatMap_triple_getElem? (forRange 0 (k - 1)) 0 ((0 : Nat) : Int)
      (forRange_zero_getElem? k 0 (by omega))
    have t1 := flatMap_triple_getElem? (forRange 0 (k - 1)) 1 ((1 : Nat) : Int)
      (forRange_zero_getElem? k 1 (by omega))
    refine ⟨delayCalculator ((0 : Nat) : Int), delayCalculator ((1 : Nat) : Int),
      ?_, ?_, by decide, rfl, rfl, rfl, rfl⟩
    · have := calculatorsFor_triple_getElem? k 2
      rw [show k.toNat + 3 = k.toNat + 1 + 2 by omega, this]
      exact t0.2.2
    · have := calculatorsFor_triple_getElem? k 5
      rw [show k.toNat + 6 = k.toNat + 1 + 5 by omega, this]
      exact t1.2.2
  · rw [calculatorsFor, List.filter_cons_of_neg (by simp [txFrameCalculator]),
      List.filter_append, filter_rxFrames_map_rx, filter_rxFrames_triples, List.append_nil,
      List.map_map]
    refine List.Nodup.map_on ?_ (forRange_one_nodup k)
    intro i hi j hj hij
    rw [mem_forRange_one] at hi hj
    exact nodeContext_injective_of_nonneg i j (by omega) (by omega) hij
  · rw [calculatorsFor, List.filter_cons_of_neg (by simp [txFrameCalculator]),
      List.filter_append, filter_appRx_map_rx, filter_appRx_triples, List.nil_append,
      List.map_map]
    refine List.Nodup.map_on ?_ (forRange_zero_nodup k)
    intro i hi j hj hij
    have hi0 := mem_forRange_zero k i hi
    have hj0 := mem_forRange_zero k j hj
    have := nodeContext_injective_of_nonneg (i + 1) (j + 1) (by omega) (by omega) hij
    omega

/-- C14 (witness): in a run with ten users the "sender-tx-packets" calculators of the first
two flows, at indices 11 and 14, differ and share key and context. -/
theorem C14_key_context_not_unique_witness :
    (2 : Int) ≤ 10
      ∧ ∃ c1 c2 : DataCalculator,
          (mkDataCollector (StdLib.mk (3 : ℚ) id id (fun _ => "")) "run-0" "WiFi6_80211ax"
              30 10).calculators[(10 : Int).toNat + 1]? = some c1
            ∧ (mkDataCollector (StdLib.mk (3 : ℚ) id id (fun _ => "")) "run-0" "WiFi6_80211ax"
                30 10).calculators[(10 : Int).toNat + 4]? = some c2
            ∧ c1 ≠ c2
            ∧ c1.Key = "sender-tx-packets" ∧ c2.Key = "sender-tx-packets"
            ∧ c1.Context = "node[0]" ∧ c2.Context = "node[0]" :=
  ⟨by decide,
    (C14_key_context_not_unique (StdLib.mk (3 : ℚ) id id (fun _ => "")) "run-0"
      "WiFi6_80211ax" 30 10).2.2.1 (by decide)⟩

end WifiExampleSim
